import Mathlib

/-!
Shallow embedding of the Demikernel facade layer: the C ABI surface
(`src/rust/demikernel/bindings.rs`) and the LibOS dispatcher with its
asynchronous wait family (`src/rust/demikernel/libos/mod.rs`).

Transport backends, the scheduler internals, configuration parsing and
logging are external collaborators of the code under verification; they
are abstracted as records of state-transforming functions.  Machine
integers are modelled as `Nat`/`Int` with explicit `% 2^64` where the
Rust code performs wrapping casts or wrapping arithmetic.
-/

namespace Demikernel

/-! Errno constants of the Linux libc, as used by the source. -/

def EINVAL : Int := 22
def ENOSYS : Int := 38
def EBUSY : Int := 16
def ENOTSUP : Int := 95
def ETIMEDOUT : Int := 110

/-- AF_INET communication domain. -/
def AF_INET : Nat := 2

/-- runtime::fail::Fail: an errno together with a cause message. -/
structure Fail where
  errno : Int
  cause : String
deriving DecidableEq, Repr

/-- Fail::new. -/
def Fail.new (errno : Int) (cause : String) : Fail := ⟨errno, cause⟩

/-- QDesc: an I/O queue descriptor (converted to/from c_int at the ABI). -/
abbrev QDesc := Int

/-- QToken: a 64-bit token naming one in-flight asynchronous operation. -/
abbrev QToken := Nat

/-!
The scheduler abstraction consumed by the wait family of
`libos/mod.rs` (`self.schedule`, `self.poll`, `self.pack_result` and the
`SchedulerHandle` methods `has_completed`/`take_key`).  A scheduler
handle is a transient capability for one token, so its methods are
modelled as functions of the scheduler state `σ` and the token.  The two
clocks (`Instant::now`, `SystemTime::now`) are reads of the threaded
state, in nanoseconds.  `ρ` is the type of packed `demi_qresult_t`
records.
-/

structure SchedOps (σ ρ : Type) where
  poll : σ → σ
  schedule : σ → QToken → Except Fail Unit × σ
  has_completed : σ → QToken → Bool
  pack_result : σ → QToken → Except Fail ρ × σ
  take_key : σ → QToken → σ
  instant_now : σ → Nat
  system_time_now : σ → Nat

variable {σ ρ : Type}

/-- the body of the `for (i, &qt) in qts.iter().enumerate()` loop of
`LibOS::wait_any`: resolve each token's handle in order; at the first
completed one pack the result and return its index; otherwise put the
key back and continue.  A `?`-failure of `schedule` or `pack_result`
aborts the whole call with that `Fail`. -/
def wait_any_scan (ops : SchedOps σ ρ) : σ → List (Nat × QToken) → Except Fail (Option (Nat × ρ)) × σ
  | s, [] => (.ok none, s)
  | s, (i, qt) :: rest =>
    match ops.schedule s qt with
    | (.error e, s1) => (.error e, s1)
    | (.ok _, s1) =>
      if ops.has_completed s1 qt then
        match ops.pack_result s1 qt with
        | (.ok qr, s2) => (.ok (some (i, qr)), s2)
        | (.error e, s2) => (.error e, s2)
      else
        wait_any_scan ops (ops.take_key s1 qt) rest

/-- the `loop` of `LibOS::wait_any`: poll, scan all tokens, then check
`Instant::now().duration_since(start) > timeout` when a timeout was
given.  `fuel` bounds the number of iterations (`none` = the source
loop has not returned within `fuel` poll cycles). -/
def wait_any_loop (ops : SchedOps σ ρ) (qts : List QToken) (timeout : Option Nat) (start : Nat) :
    σ → Nat → Option (Except Fail (Nat × ρ) × σ)
  | _, 0 => none
  | s, fuel + 1 =>
    let s1 := ops.poll s
    match wait_any_scan ops s1 qts.enum with
    | (.ok (some iqr), s2) => some (.ok iqr, s2)
    | (.error e, s2) => some (.error e, s2)
    | (.ok none, s2) =>
      match timeout with
      | some t =>
        if ops.instant_now s2 - start > t then
          some (.error (Fail.new ETIMEDOUT "timer expired"), s2)
        else
          wait_any_loop ops qts timeout start s2 fuel
      | none => wait_any_loop ops qts timeout start s2 fuel

/-- LibOS::wait_any.  The source records `start = Instant::now()` only
when a timeout is given; since `start` is read only on the timed branch,
it is passed unconditionally here. -/
def wait_any (ops : SchedOps σ ρ) (s : σ) (qts : List QToken) (timeout : Option Nat) (fuel : Nat) :
    Option (Except Fail (Nat × ρ) × σ) :=
  wait_any_loop ops qts timeout (ops.instant_now s) s fuel

/-- LibOS::wait: a single-token wrapper for `wait_any` that drops the
returned offset (which the source `debug_assert!`s to be 0). -/
def wait (ops : SchedOps σ ρ) (s : σ) (qt : QToken) (timeout : Option Nat) (fuel : Nat) :
    Option (Except Fail ρ × σ) :=
  match wait_any ops s [qt] timeout fuel with
  | none => none
  | some (.ok (_offset, qr), s') => some (.ok qr, s')
  | some (.error e, s') => some (.error e, s')

/-- the `loop` of `LibOS::timedwait`: poll; if the (single, pre-resolved)
handle has completed, pack the result; otherwise time out when
`abstime.is_none() || SystemTime::now() >= abstime.unwrap()`, returning
the key to the scheduler before the ETIMEDOUT. -/
def timedwait_loop (ops : SchedOps σ ρ) (qt : QToken) (abstime : Option Nat) :
    σ → Nat → Option (Except Fail ρ × σ)
  | _, 0 => none
  | s, fuel + 1 =>
    let s1 := ops.poll s
    if ops.has_completed s1 qt then
      match ops.pack_result s1 qt with
      | (.ok qr, s2) => some (.ok qr, s2)
      | (.error e, s2) => some (.error e, s2)
    else
      match abstime with
      | none => some (.error (Fail.new ETIMEDOUT "timer expired"), ops.take_key s1 qt)
      | some t =>
        if ops.system_time_now s1 ≥ t then
          some (.error (Fail.new ETIMEDOUT "timer expired"), ops.take_key s1 qt)
        else
          timedwait_loop ops qt abstime s1 fuel

/-- LibOS::timedwait: resolve the token's handle once, then loop. -/
def timedwait (ops : SchedOps σ ρ) (s : σ) (qt : QToken) (abstime : Option Nat) (fuel : Nat) :
    Option (Except Fail ρ × σ) :=
  match ops.schedule s qt with
  | (.error e, s1) => some (.error e, s1)
  | (.ok _, s1) => timedwait_loop ops qt abstime s1 fuel

/-- Modelled from the spec (§4.4): the poll / check-completion /
pack-or-expire skeleton that `wait` and `timedwait` share, parameterised
by the expiry predicate in which the two differ.  The key is returned to
the scheduler before the ETIMEDOUT exit. -/
def poll_check_loop (ops : SchedOps σ ρ) (qt : QToken) (expired : σ → Bool) :
    σ → Nat → Option (Except Fail ρ × σ)
  | _, 0 => none
  | s, fuel + 1 =>
    let s1 := ops.poll s
    if ops.has_completed s1 qt then
      match ops.pack_result s1 qt with
      | (.ok qr, s2) => some (.ok qr, s2)
      | (.error e, s2) => some (.error e, s2)
    else
      if expired s1 then
        some (.error (Fail.new ETIMEDOUT "timer expired"), ops.take_key s1 qt)
      else
        poll_check_loop ops qt expired s1 fuel

/-!
Value marshalling (`bindings.rs`): conversion from the C `sockaddr`
representation to the internal IPv4 socket-address value.  The host is
little-endian (the targets of the source), so a `u16`/`u32` field holds
the little-endian load of its bytes and `from_be` is a byte reversal.
-/

/-- libc::sockaddr: a 16-bit family followed by 14 opaque data bytes. -/
structure CSockaddr where
  sa_family : Nat
  sa_data : List Nat

/-- pal::data_structures::SockAddrIn (sockaddr_in): family, port in
network byte order, 32-bit address in network byte order. -/
structure SockAddrIn where
  sin_family : Nat
  sin_port : Nat
  sin_addr : Nat

/-- the `mem::transmute::<*const sockaddr, *const SockAddrIn>` read in
`sockaddr_to_socketaddrv4`: on a little-endian host, `sin_port` overlays
`sa_data` bytes 0-1 and `sin_addr` overlays bytes 2-5. -/
def sockaddr_transmute (sa : CSockaddr) : SockAddrIn :=
  { sin_family := sa.sa_family
    sin_port := sa.sa_data.getD 0 0 + 256 * sa.sa_data.getD 1 0
    sin_addr := sa.sa_data.getD 2 0 + 256 * sa.sa_data.getD 3 0
      + 65536 * sa.sa_data.getD 4 0 + 16777216 * sa.sa_data.getD 5 0 }

/-- u16::from_be on a little-endian host: swap the two bytes. -/
def u16_from_be (x : Nat) : Nat := x % 256 * 256 + x / 256 % 256

/-- u32::from_be on a little-endian host: reverse the four bytes. -/
def u32_from_be (x : Nat) : Nat :=
  x % 256 * 16777216 + x / 256 % 256 * 65536 + x / 65536 % 256 * 256 + x / 16777216 % 256

/-- std::net::SocketAddrV4: an IPv4 address (as four octets) and a port,
both in host order. -/
structure SocketAddrV4 where
  ip : Nat × Nat × Nat × Nat
  port : Nat
deriving DecidableEq, Repr

/-- Ipv4Addr::from(u32): the octets of the value, most significant
byte first. -/
def ipv4_from_u32 (n : Nat) : Nat × Nat × Nat × Nat :=
  (n / 16777216 % 256, n / 65536 % 256, n / 256 % 256, n % 256)

/-- Modelled from the spec: the pal helper
`get_addr_from_sock_addr_in` (not under src/) extracts the 32-bit
address field of a sockaddr_in (§4.5 "Extract the 32-bit address"). -/
def get_addr_from_sock_addr_in (sin : SockAddrIn) : Nat := sin.sin_addr

/-- bindings.rs: sockaddr_to_socketaddrv4. -/
def sockaddr_to_socketaddrv4 (saddr : CSockaddr) : Except Fail SocketAddrV4 :=
  let sin : SockAddrIn := sockaddr_transmute saddr
  if sin.sin_family ≠ AF_INET then
    .error (Fail.new ENOTSUP "communication domain not supported")
  else
    .ok { ip := ipv4_from_u32 (u32_from_be (get_addr_from_sock_addr_in sin))
          port := u16_from_be sin.sin_port }

/-!
The dispatcher of `libos/mod.rs`: `enum LibOS` with a NetworkLibOS arm
and a MemoryLibOS arm.  The concrete backends behind each arm are
external collaborators, abstracted as records of state-transforming
operations over arm states `σ` (network) and `τ` (memory).  `Sga` is
the type of `demi_sgarray_t` values, `Qr` of `demi_qresult_t` records.
-/

structure NetworkOps (σ Sga Qr : Type) where
  socket : σ → Int → Int → Int → Except Fail QDesc × σ
  bind : σ → QDesc → SocketAddrV4 → Except Fail Unit × σ
  listen : σ → QDesc → Nat → Except Fail Unit × σ
  accept : σ → QDesc → Except Fail QToken × σ
  connect : σ → QDesc → SocketAddrV4 → Except Fail QToken × σ
  close : σ → QDesc → Except Fail Unit × σ
  push : σ → QDesc → Sga → Except Fail QToken × σ
  pushto : σ → QDesc → Sga → SocketAddrV4 → Except Fail QToken × σ
  pop : σ → QDesc → Except Fail QToken × σ
  sgaalloc : σ → Nat → Except Fail Sga
  sgafree : σ → Sga → Except Fail Unit
  schedule : σ → QToken → Except Fail Unit × σ
  pack_result : σ → QToken → Except Fail Qr × σ
  poll : σ → σ

structure MemoryOps (τ Sga Qr : Type) where
  create_pipe : τ → String → Except Fail QDesc × τ
  open_pipe : τ → String → Except Fail QDesc × τ
  close : τ → QDesc → Except Fail Unit × τ
  push : τ → QDesc → Sga → Except Fail QToken × τ
  pop : τ → QDesc → Except Fail QToken × τ
  sgaalloc : τ → Nat → Except Fail Sga
  sgafree : τ → Sga → Except Fail Unit
  schedule : τ → QToken → Except Fail Unit × τ
  pack_result : τ → QToken → Except Fail Qr × τ
  poll : τ → τ

/-- enum LibOS: the active dispatch family, fixed at initialization. -/
inductive LibOS (σ τ : Type) where
  | networkLibOS (libos : σ)
  | memoryLibOS (libos : τ)

variable {τ Sga Qr : Type}

namespace LibOS

/-- LibOS::create_pipe. -/
def create_pipe (mops : MemoryOps τ Sga Qr) :
    LibOS σ τ → String → Except Fail QDesc × LibOS σ τ
  | .networkLibOS l, _ =>
    (.error (Fail.new ENOTSUP "create_pipe() is not supported on network liboses"), .networkLibOS l)
  | .memoryLibOS l, name =>
    match mops.create_pipe l name with
    | (r, l') => (r, .memoryLibOS l')

/-- LibOS::open_pipe. -/
def open_pipe (mops : MemoryOps τ Sga Qr) :
    LibOS σ τ → String → Except Fail QDesc × LibOS σ τ
  | .networkLibOS l, _ =>
    (.error (Fail.new ENOTSUP "open_pipe() is not supported on network liboses"), .networkLibOS l)
  | .memoryLibOS l, name =>
    match mops.open_pipe l name with
    | (r, l') => (r, .memoryLibOS l')

/-- LibOS::socket. -/
def socket (nops : NetworkOps σ Sga Qr) :
    LibOS σ τ → Int → Int → Int → Except Fail QDesc × LibOS σ τ
  | .networkLibOS l, domain, socket_type, protocol =>
    match nops.socket l domain socket_type protocol with
    | (r, l') => (r, .networkLibOS l')
  | .memoryLibOS l, _, _, _ =>
    (.error (Fail.new ENOTSUP "socket() is not supported on memory liboses"), .memoryLibOS l)

/-- LibOS::bind. -/
def bind (nops : NetworkOps σ Sga Qr) :
    LibOS σ τ → QDesc → SocketAddrV4 → Except Fail Unit × LibOS σ τ
  | .networkLibOS l, sockqd, localAddr =>
    match nops.bind l sockqd localAddr with
    | (r, l') => (r, .networkLibOS l')
  | .memoryLibOS l, _, _ =>
    (.error (Fail.new ENOTSUP "bind() is not supported on memory liboses"), .memoryLibOS l)

/-- LibOS::listen. -/
def listen (nops : NetworkOps σ Sga Qr) :
    LibOS σ τ → QDesc → Nat → Except Fail Unit × LibOS σ τ
  | .networkLibOS l, sockqd, backlog =>
    match nops.listen l sockqd backlog with
    | (r, l') => (r, .networkLibOS l')
  | .memoryLibOS l, _, _ =>
    (.error (Fail.new ENOTSUP "listen() is not supported on memory liboses"), .memoryLibOS l)

/-- LibOS::accept. -/
def accept (nops : NetworkOps σ Sga Qr) :
    LibOS σ τ → QDesc → Except Fail QToken × LibOS σ τ
  | .networkLibOS l, sockqd =>
    match nops.accept l sockqd with
    | (r, l') => (r, .networkLibOS l')
  | .memoryLibOS l, _ =>
    (.error (Fail.new ENOTSUP "accept() is not supported on memory liboses"), .memoryLibOS l)

/-- LibOS::connect. -/
def connect (nops : NetworkOps σ Sga Qr) :
    LibOS σ τ → QDesc → SocketAddrV4 → Except Fail QToken × LibOS σ τ
  | .networkLibOS l, sockqd, remote =>
    match nops.connect l sockqd remote with
    | (r, l') => (r, .networkLibOS l')
  | .memoryLibOS l, _, _ =>
    (.error (Fail.new ENOTSUP "connect() is not supported on memory liboses"), .memoryLibOS l)

/-- LibOS::close: forwarded to whichever arm is active. -/
def close (nops : NetworkOps σ Sga Qr) (mops : MemoryOps τ Sga Qr) :
    LibOS σ τ → QDesc → Except Fail Unit × LibOS σ τ
  | .networkLibOS l, qd =>
    match nops.close l qd with
    | (r, l') => (r, .networkLibOS l')
  | .memoryLibOS l, qd =>
    match mops.close l qd with
    | (r, l') => (r, .memoryLibOS l')

/-- LibOS::push: forwarded to whichever arm is active. -/
def push (nops : NetworkOps σ Sga Qr) (mops : MemoryOps τ Sga Qr) :
    LibOS σ τ → QDesc → Sga → Except Fail QToken × LibOS σ τ
  | .networkLibOS l, qd, sga =>
    match nops.push l qd sga with
    | (r, l') => (r, .networkLibOS l')
  | .memoryLibOS l, qd, sga =>
    match mops.push l qd sga with
    | (r, l') => (r, .memoryLibOS l')

/-- LibOS::pushto. -/
def pushto (nops : NetworkOps σ Sga Qr) :
    LibOS σ τ → QDesc → Sga → SocketAddrV4 → Except Fail QToken × LibOS σ τ
  | .networkLibOS l, qd, sga, dest =>
    match nops.pushto l qd sga dest with
    | (r, l') => (r, .networkLibOS l')
  | .memoryLibOS l, _, _, _ =>
    (.error (Fail.new ENOTSUP "pushto() is not supported on memory liboses"), .memoryLibOS l)

/-- LibOS::pop: forwarded to whichever arm is active. -/
def pop (nops : NetworkOps σ Sga Qr) (mops : MemoryOps τ Sga Qr) :
    LibOS σ τ → QDesc → Except Fail QToken × LibOS σ τ
  | .networkLibOS l, qd =>
    match nops.pop l qd with
    | (r, l') => (r, .networkLibOS l')
  | .memoryLibOS l, qd =>
    match mops.pop l qd with
    | (r, l') => (r, .memoryLibOS l')

/-- LibOS::sgaalloc: forwarded to whichever arm is active (`&self`). -/
def sgaalloc (nops : NetworkOps σ Sga Qr) (mops : MemoryOps τ Sga Qr) :
    LibOS σ τ → Nat → Except Fail Sga
  | .networkLibOS l, size => nops.sgaalloc l size
  | .memoryLibOS l, size => mops.sgaalloc l size

/-- LibOS::sgafree: forwarded to whichever arm is active (`&self`). -/
def sgafree (nops : NetworkOps σ Sga Qr) (mops : MemoryOps τ Sga Qr) :
    LibOS σ τ → Sga → Except Fail Unit
  | .networkLibOS l, sga => nops.sgafree l sga
  | .memoryLibOS l, sga => mops.sgafree l sga

/-- LibOS::schedule: forwarded to whichever arm is active. -/
def schedule (nops : NetworkOps σ Sga Qr) (mops : MemoryOps τ Sga Qr) :
    LibOS σ τ → QToken → Except Fail Unit × LibOS σ τ
  | .networkLibOS l, qt =>
    match nops.schedule l qt with
    | (r, l') => (r, .networkLibOS l')
  | .memoryLibOS l, qt =>
    match mops.schedule l qt with
    | (r, l') => (r, .memoryLibOS l')

/-- LibOS::pack_result: forwarded to whichever arm is active. -/
def pack_result (nops : NetworkOps σ Sga Qr) (mops : MemoryOps τ Sga Qr) :
    LibOS σ τ → QToken → Except Fail Qr × LibOS σ τ
  | .networkLibOS l, qt =>
    match nops.pack_result l qt with
    | (r, l') => (r, .networkLibOS l')
  | .memoryLibOS l, qt =>
    match mops.pack_result l qt with
    | (r, l') => (r, .memoryLibOS l')

/-- LibOS::poll: forwarded to whichever arm is active. -/
def poll (nops : NetworkOps σ Sga Qr) (mops : MemoryOps τ Sga Qr) :
    LibOS σ τ → LibOS σ τ
  | .networkLibOS l => .networkLibOS (nops.poll l)
  | .memoryLibOS l => .memoryLibOS (mops.poll l)

end LibOS

/-!
The ABI surface of `bindings.rs`.  The process singleton
`static DEMIKERNEL: RefCell<Option<LibOS>>` is a mutable optional with
a borrow flag; `do_syscall` models `try_borrow_mut` (EBUSY when already
borrowed), the `Option` check (ENOSYS when uninitialized), and running
the dispatched closure under the borrow, which is released afterwards.
The installed LibOS is abstracted as `Λ` with its `libos/mod.rs`
methods given by a `LibOSApi` record; out-pointer writes are modelled
as `Option` components of each entry point's result (`none` = the
facade did not write the out-parameter).
-/

structure Singleton (Λ : Type) where
  contents : Option Λ
  borrowed : Bool

variable {Λ β : Type}

/-- bindings.rs: do_syscall. -/
def do_syscall (cell : Singleton Λ) (f : Λ → β × Λ) : Except Fail β × Singleton Λ :=
  if cell.borrowed then
    (.error (Fail.new EBUSY "Demikernel is busy"), cell)
  else
    match cell.contents with
    | some libos =>
      match f libos with
      | (r, libos') => (.ok r, ⟨some libos', false⟩)
    | none => (.error (Fail.new ENOSYS "Demikernel is not initialized"), cell)

/-- the common epilogue of entry points with one out-pointer: run the
closure under the singleton borrow and collapse
`match ret { Ok(ret) => ret, Err(e) => e.errno }` into
(status, out-write, final singleton). -/
def run_out_syscall {Λ κ : Type} (cell : Singleton Λ) (f : Λ → (Int × Option κ) × Λ) :
    Int × Option κ × Singleton Λ :=
  match do_syscall cell f with
  | (.ok (st, out), cell') => (st, out, cell')
  | (.error e, cell') => (e.errno, none, cell')

/-- the common epilogue of entry points with no out-pointer. -/
def run_status_syscall {Λ : Type} (cell : Singleton Λ) (f : Λ → Int × Λ) :
    Int × Singleton Λ :=
  match do_syscall cell f with
  | (.ok st, cell') => (st, cell')
  | (.error e, cell') => (e.errno, cell')

/-- the epilogue of demi_wait_any, which has two out-pointers. -/
def run_out2_syscall {Λ κ : Type} (cell : Singleton Λ)
    (f : Λ → (Int × Option κ × Option Int) × Λ) :
    Int × Option κ × Option Int × Singleton Λ :=
  match do_syscall cell f with
  | (.ok (st, out1, out2), cell') => (st, out1, out2, cell')
  | (.error e, cell') => (e.errno, none, none, cell')

/-- the `libos/mod.rs` methods as seen from `bindings.rs`, over an
abstract installed-LibOS state `Λ` (mutating methods also return the
new state; `sgaalloc`/`sgafree` take `&self`). -/
structure LibOSApi (Λ Sga Qr : Type) where
  create_pipe : Λ → String → Except Fail QDesc × Λ
  open_pipe : Λ → String → Except Fail QDesc × Λ
  socket : Λ → Int → Int → Int → Except Fail QDesc × Λ
  bind : Λ → QDesc → SocketAddrV4 → Except Fail Unit × Λ
  listen : Λ → QDesc → Nat → Except Fail Unit × Λ
  accept : Λ → QDesc → Except Fail QToken × Λ
  connect : Λ → QDesc → SocketAddrV4 → Except Fail QToken × Λ
  close : Λ → QDesc → Except Fail Unit × Λ
  push : Λ → QDesc → Sga → Except Fail QToken × Λ
  pushto : Λ → QDesc → Sga → SocketAddrV4 → Except Fail QToken × Λ
  pop : Λ → QDesc → Except Fail QToken × Λ
  wait : Λ → QToken → Option Nat → Except Fail Qr × Λ
  timedwait : Λ → QToken → Option Nat → Except Fail Qr × Λ
  wait_any : Λ → List QToken → Option Nat → Except Fail (Nat × Qr) × Λ
  sgaalloc : Λ → Nat → Except Fail Sga
  sgafree : Λ → Sga → Except Fail Unit

/-- the size in bytes of SockAddrIn (`mem::size_of::<SockAddrIn>()`). -/
def sockaddr_in_size : Nat := 16

/-- 2^64, the modulus of wrapping u64 arithmetic. -/
def U64_MOD : Nat := 18446744073709551616

/-- Rust's `as u64` cast of an i64: two's-complement wrap. -/
def int_as_u64 (i : Int) : Nat := (i % 18446744073709551616).toNat

/-- Rust's `as u32` cast of an i64: two's-complement wrap. -/
def int_as_u32 (i : Int) : Nat := (i % 4294967296).toNat

/-- the nanosecond count computed by `demi_timedwait`:
`(*abstime).tv_sec as u64 * 1_000_000_000_ + (*abstime).tv_nsec as u64`
in wrapping u64 arithmetic. -/
def timespec_abs_nanos (tv_sec tv_nsec : Int) : Nat :=
  (int_as_u64 tv_sec * 1000000000 % U64_MOD + int_as_u64 tv_nsec) % U64_MOD

/-- `SystemTime::UNIX_EPOCH.checked_add(Duration::from_nanos(..))` with
the `None` (overflow) branch substituting `SystemTime::now()`.  System
times are nanoseconds since the epoch; `sys_time_max` is the largest
representable system time and `now` the current one. -/
def demi_timedwait_deadline (sys_time_max now : Nat) (tv_sec tv_nsec : Int) : Nat :=
  if timespec_abs_nanos tv_sec tv_nsec ≤ sys_time_max then
    timespec_abs_nanos tv_sec tv_nsec
  else
    now

/-- Modelled from the spec (§4.5): the absolute deadline as the spec
words it — interpret the timespec pair as nanoseconds since the epoch,
compute UNIX_EPOCH + that, and on arithmetic overflow substitute the
current system time. -/
def spec_timedwait_deadline (sys_time_max now : Nat) (tv_sec tv_nsec : Int) : Nat :=
  if 0 ≤ tv_sec * 1000000000 + tv_nsec ∧ tv_sec * 1000000000 + tv_nsec ≤ (sys_time_max : Int) then
    (tv_sec * 1000000000 + tv_nsec).toNat
  else
    now

/-- the relative duration computed by `demi_wait`/`demi_wait_any`:
`Duration::new((*timeout).tv_sec as u64, (*timeout).tv_nsec as u32)`,
in nanoseconds. -/
def demi_wait_duration (tv_sec tv_nsec : Int) : Nat :=
  int_as_u64 tv_sec * 1000000000 + int_as_u32 tv_nsec

variable {Sga Qr : Type}

/-- `LibOS::new` (libos/mod.rs): read CONFIG_PATH from the environment
(absence fails with EINVAL); then construct the backend selected by the
libos name (config parsing and the backend constructors are external,
abstracted as `mk`; the panic on an unsupported name is not a return). -/
def LibOS.new (mk : String → Λ) (config_path : Option String) : Except Fail Λ :=
  match config_path with
  | some p => .ok (mk p)
  | none => .error (Fail.new EINVAL "missing value for CONFIG_PATH environment variable")

/-- demi_init: construct the LibOS and install it in the singleton;
on failure return `-e.errno` (note the negation in the source).  The
`LibOSName::from_env` panic path is not a return and is not modelled. -/
def demi_init (mk : String → Λ) (config_path : Option String) (cell : Singleton Λ) :
    Int × Singleton Λ :=
  match LibOS.new mk config_path with
  | .ok libos => (0, ⟨some libos, false⟩)
  | .error e => (-e.errno, cell)

/-- demi_create_pipe: `name` is the marshalled C string (`none` =
invalid UTF-8).  Result: (status, value written to *memqd_out if any,
final singleton). -/
def demi_create_pipe (api : LibOSApi Λ Sga Qr) (cell : Singleton Λ) (name : Option String) :
    Int × Option QDesc × Singleton Λ :=
  match name with
  | none => (EINVAL, none, cell)
  | some nm =>
    run_out_syscall cell (fun libos =>
      match api.create_pipe libos nm with
      | (.ok qd, l') => ((0, some qd), l')
      | (.error e, l') => ((e.errno, (none : Option QDesc)), l'))

/-- demi_open_pipe. -/
def demi_open_pipe (api : LibOSApi Λ Sga Qr) (cell : Singleton Λ) (name : Option String) :
    Int × Option QDesc × Singleton Λ :=
  match name with
  | none => (EINVAL, none, cell)
  | some nm =>
    run_out_syscall cell (fun libos =>
      match api.open_pipe libos nm with
      | (.ok qd, l') => ((0, some qd), l')
      | (.error e, l') => ((e.errno, (none : Option QDesc)), l'))

/-- demi_socket. -/
def demi_socket (api : LibOSApi Λ Sga Qr) (cell : Singleton Λ)
    (domain socket_type protocol : Int) : Int × Option QDesc × Singleton Λ :=
  run_out_syscall cell (fun libos =>
    match api.socket libos domain socket_type protocol with
    | (.ok qd, l') => ((0, some qd), l')
    | (.error e, l') => ((e.errno, (none : Option QDesc)), l'))

/-- demi_bind: null-pointer and size checks, sockaddr conversion, then
dispatch (`saddr = none` models a null pointer). -/
def demi_bind (api : LibOSApi Λ Sga Qr) (cell : Singleton Λ)
    (qd : Int) (saddr : Option CSockaddr) (size : Nat) : Int × Singleton Λ :=
  match saddr with
  | none => (EINVAL, cell)
  | some sa =>
    if size ≠ sockaddr_in_size then (EINVAL, cell)
    else
      match sockaddr_to_socketaddrv4 sa with
      | .error e => (e.errno, cell)
      | .ok endpoint =>
        run_status_syscall cell (fun libos =>
          match api.bind libos qd endpoint with
          | (.ok _, l') => ((0 : Int), l')
          | (.error e, l') => (e.errno, l'))

/-- demi_listen: `backlog < 1` is EINVAL; otherwise dispatch with
`backlog as usize`. -/
def demi_listen (api : LibOSApi Λ Sga Qr) (cell : Singleton Λ)
    (sockqd backlog : Int) : Int × Singleton Λ :=
  if backlog < 1 then (EINVAL, cell)
  else
    run_status_syscall cell (fun libos =>
      match api.listen libos sockqd backlog.toNat with
      | (.ok _, l') => ((0 : Int), l')
      | (.error e, l') => (e.errno, l'))

/-- demi_accept: on success of the dispatched accept, `*qtok_out` is
written with the token; on failure nothing is written. -/
def demi_accept (api : LibOSApi Λ Sga Qr) (cell : Singleton Λ) (sockqd : Int) :
    Int × Option QToken × Singleton Λ :=
  run_out_syscall cell (fun libos =>
    match api.accept libos sockqd with
    | (.ok qt, l') => ((0, some qt), l')
    | (.error e, l') => ((e.errno, (none : Option QToken)), l'))

/-- demi_connect. -/
def demi_connect (api : LibOSApi Λ Sga Qr) (cell : Singleton Λ)
    (sockqd : Int) (saddr : Option CSockaddr) (size : Nat) :
    Int × Option QToken × Singleton Λ :=
  match saddr with
  | none => (EINVAL, none, cell)
  | some sa =>
    if size ≠ sockaddr_in_size then (EINVAL, none, cell)
    else
      match sockaddr_to_socketaddrv4 sa with
      | .error e => (e.errno, none, cell)
      | .ok endpoint =>
        run_out_syscall cell (fun libos =>
          match api.connect libos sockqd endpoint with
          | (.ok qt, l') => ((0, some qt), l')
          | (.error e, l') => ((e.errno, (none : Option QToken)), l'))

/-- demi_close. -/
def demi_close (api : LibOSApi Λ Sga Qr) (cell : Singleton Λ) (qd : Int) :
    Int × Singleton Λ :=
  run_status_syscall cell (fun libos =>
    match api.close libos qd with
    | (.ok _, l') => ((0 : Int), l')
    | (.error e, l') => (e.errno, l'))

/-- demi_pushto. -/
def demi_pushto (api : LibOSApi Λ Sga Qr) (cell : Singleton Λ)
    (sockqd : Int) (sga : Option Sga) (saddr : Option CSockaddr) (size : Nat) :
    Int × Option QToken × Singleton Λ :=
  match sga with
  | none => (EINVAL, none, cell)
  | some sga =>
    match saddr with
    | none => (EINVAL, none, cell)
    | some sa =>
      if size ≠ sockaddr_in_size then (EINVAL, none, cell)
      else
        match sockaddr_to_socketaddrv4 sa with
        | .error e => (e.errno, none, cell)
        | .ok endpoint =>
          run_out_syscall cell (fun libos =>
            match api.pushto libos sockqd sga endpoint with
            | (.ok qt, l') => ((0, some qt), l')
            | (.error e, l') => ((e.errno, (none : Option QToken)), l'))

/-- demi_push. -/
def demi_push (api : LibOSApi Λ Sga Qr) (cell : Singleton Λ)
    (qd : Int) (sga : Option Sga) : Int × Option QToken × Singleton Λ :=
  match sga with
  | none => (EINVAL, none, cell)
  | some sga =>
    run_out_syscall cell (fun libos =>
      match api.push libos qd sga with
      | (.ok qt, l') => ((0, some qt), l')
      | (.error e, l') => ((e.errno, (none : Option QToken)), l'))

/-- demi_pop. -/
def demi_pop (api : LibOSApi Λ Sga Qr) (cell : Singleton Λ) (qd : Int) :
    Int × Option QToken × Singleton Λ :=
  run_out_syscall cell (fun libos =>
    match api.pop libos qd with
    | (.ok qt, l') => ((0, some qt), l')
    | (.error e, l') => ((e.errno, (none : Option QToken)), l'))

/-- demi_timedwait: a null `abstime` is EINVAL; otherwise the timespec
is converted to an absolute deadline (always `some`) and dispatched.
`qr_out_is_null` models the nullability of the result pointer: on
success `*qr_out` is written only when it is non-null. -/
def demi_timedwait (api : LibOSApi Λ Sga Qr) (cell : Singleton Λ)
    (qr_out_is_null : Bool) (qt : QToken) (abstime_ts : Option (Int × Int))
    (sys_time_max now : Nat) : Int × Option Qr × Singleton Λ :=
  match abstime_ts with
  | none => (EINVAL, none, cell)
  | some (tv_sec, tv_nsec) =>
    let abstime : Option Nat := some (demi_timedwait_deadline sys_time_max now tv_sec tv_nsec)
    run_out_syscall cell (fun libos =>
      match api.timedwait libos qt abstime with
      | (.ok r, l') => ((0, if qr_out_is_null then none else some r), l')
      | (.error e, l') => ((e.errno, (none : Option Qr)), l'))

/-- demi_wait: a null `timeout` means no timeout (wait forever). -/
def demi_wait (api : LibOSApi Λ Sga Qr) (cell : Singleton Λ)
    (qr_out_is_null : Bool) (qt : QToken) (timeout_ts : Option (Int × Int)) :
    Int × Option Qr × Singleton Λ :=
  let duration : Option Nat :=
    match timeout_ts with
    | none => none
    | some (tv_sec, tv_nsec) => some (demi_wait_duration tv_sec tv_nsec)
  run_out_syscall cell (fun libos =>
    match api.wait libos qt duration with
    | (.ok r, l') => ((0, if qr_out_is_null then none else some r), l')
    | (.error e, l') => ((e.errno, (none : Option Qr)), l'))

/-- demi_wait_any: a negative `num_qts` is EINVAL; otherwise the first
`num_qts` tokens are read from the array (given here already marshalled
as `qts`) and dispatched.  On success both `*qr_out` and
`*ready_offset` are written; on failure neither is. -/
def demi_wait_any (api : LibOSApi Λ Sga Qr) (cell : Singleton Λ)
    (qts : List QToken) (num_qts : Int) (timeout_ts : Option (Int × Int)) :
    Int × Option Qr × Option Int × Singleton Λ :=
  if num_qts < 0 then (EINVAL, none, none, cell)
  else
    let duration : Option Nat :=
      match timeout_ts with
      | none => none
      | some (tv_sec, tv_nsec) => some (demi_wait_duration tv_sec tv_nsec)
    run_out2_syscall cell (fun libos =>
      match api.wait_any libos qts duration with
      | (.ok (ix, qr), l') => ((0, some qr, some (ix : Int)), l')
      | (.error e, l') => ((e.errno, (none : Option Qr), (none : Option Int)), l'))

/-- demi_sgaalloc: unlike the other entry points it returns an SGA
value, not an errno status.  `null_sga` stands for the zeroed
demi_sgarray_t the source constructs locally; both a dispatched
sgaalloc failure and a singleton failure (the EBUSY/ENOSYS Fail from
do_syscall) are collapsed to it. -/
def demi_sgaalloc (api : LibOSApi Λ Sga Qr) (cell : Singleton Λ) (null_sga : Sga)
    (size : Nat) : Sga × Singleton Λ :=
  match do_syscall cell (fun libos =>
      ((match api.sgaalloc libos size with
        | .ok sga => sga
        | .error _ => null_sga), libos)) with
  | (.ok sga, cell') => (sga, cell')
  | (.error _, cell') => (null_sga, cell')

/-- demi_sgafree: a null sga pointer is EINVAL. -/
def demi_sgafree (api : LibOSApi Λ Sga Qr) (cell : Singleton Λ) (sga : Option Sga) :
    Int × Singleton Λ :=
  match sga with
  | none => (EINVAL, cell)
  | some sga =>
    run_status_syscall cell (fun libos => ((match api.sgafree libos sga with
      | .ok _ => (0 : Int)
      | .error e => e.errno), libos))

/-- the status convention: 0 for success or a strictly positive errno. -/
def StatusOk (st : Int) : Prop := st = 0 ∨ 0 < st

/-- a backend result obeys the POSIX errno contract of §6: any carried
failure has a strictly positive errno. -/
def errnoOk {α : Type} : Except Fail α → Prop
  | .error e => 0 < e.errno
  | .ok _ => True

/-- the §6 contract of the installed LibOS as a collaborator: every
failure it returns carries a strictly positive errno. -/
structure ApiPositive {Λ Sga Qr : Type} (api : LibOSApi Λ Sga Qr) : Prop where
  create_pipe : ∀ l name, errnoOk (api.create_pipe l name).1
  open_pipe : ∀ l name, errnoOk (api.open_pipe l name).1
  socket : ∀ l d t p, errnoOk (api.socket l d t p).1
  bind : ∀ l qd a, errnoOk (api.bind l qd a).1
  listen : ∀ l qd b, errnoOk (api.listen l qd b).1
  accept : ∀ l qd, errnoOk (api.accept l qd).1
  connect : ∀ l qd a, errnoOk (api.connect l qd a).1
  close : ∀ l qd, errnoOk (api.close l qd).1
  push : ∀ l qd sga, errnoOk (api.push l qd sga).1
  pushto : ∀ l qd sga a, errnoOk (api.pushto l qd sga a).1
  pop : ∀ l qd, errnoOk (api.pop l qd).1
  wait : ∀ l qt t, errnoOk (api.wait l qt t).1
  timedwait : ∀ l qt t, errnoOk (api.timedwait l qt t).1
  wait_any : ∀ l qts t, errnoOk (api.wait_any l qts t).1
  sgafree : ∀ l sga, errnoOk (api.sgafree l sga)

/-!
Concrete instances for evaluating the wait family on closed inputs.
-/

/-- a tiny concrete installed LibOS for witnesses: pipe/socket creation
succeeds with descriptor 1, submissions succeed with token 7, accept
fails with ENOTSUP and the wait family times out. -/
def demoApi : LibOSApi Unit Unit Unit where
  create_pipe := fun l _ => (.ok 1, l)
  open_pipe := fun l _ => (.ok 1, l)
  socket := fun l _ _ _ => (.ok 1, l)
  bind := fun l _ _ => (.ok (), l)
  listen := fun l _ _ => (.ok (), l)
  accept := fun l _ => (.error (Fail.new 95 "accept not supported"), l)
  connect := fun l _ _ => (.ok 7, l)
  close := fun l _ => (.ok (), l)
  push := fun l _ _ => (.ok 7, l)
  pushto := fun l _ _ _ => (.ok 7, l)
  pop := fun l _ => (.ok 7, l)
  wait := fun l _ _ => (.error (Fail.new 110 "timer expired"), l)
  timedwait := fun l _ _ => (.error (Fail.new 110 "timer expired"), l)
  wait_any := fun l _ _ => (.error (Fail.new 110 "timer expired"), l)
  sgaalloc := fun _ _ => .ok ()
  sgafree := fun _ _ => .ok ()

/-- an AF_INET test sockaddr (127.0.0.1:80). -/
def testSockaddr : CSockaddr := ⟨2, [0, 80, 127, 0, 0, 1, 0, 0, 0, 0, 0, 0, 0, 0]⟩

/-- a concrete installed LibOS over Sga = Nat whose sgaalloc succeeds
with the value 7, for exhibiting demi_sgaalloc's null-SGA behaviour
(the zeroed SGA modelled as 0). -/
def sgaApi : LibOSApi Unit Nat Unit where
  create_pipe := fun l _ => (.ok 1, l)
  open_pipe := fun l _ => (.ok 1, l)
  socket := fun l _ _ _ => (.ok 1, l)
  bind := fun l _ _ => (.ok (), l)
  listen := fun l _ _ => (.ok (), l)
  accept := fun l _ => (.ok 7, l)
  connect := fun l _ _ => (.ok 7, l)
  close := fun l _ => (.ok (), l)
  push := fun l _ _ => (.ok 7, l)
  pushto := fun l _ _ _ => (.ok 7, l)
  pop := fun l _ => (.ok 7, l)
  wait := fun l _ _ => (.error (Fail.new 110 "timer expired"), l)
  timedwait := fun l _ _ => (.error (Fail.new 110 "timer expired"), l)
  wait_any := fun l _ _ => (.error (Fail.new 110 "timer expired"), l)
  sgaalloc := fun _ _ => .ok 7
  sgafree := fun _ _ => .ok ()

/-- a tiny concrete scheduler: the state is irrelevant, token 7 is the
only completed operation and packs to the result 42. -/
def demoSched : SchedOps Unit Nat where
  poll := fun s => s
  schedule := fun s _ => (.ok (), s)
  has_completed := fun _ q => q == 7
  pack_result := fun s _ => (.ok 42, s)
  take_key := fun s _ => s
  instant_now := fun _ => 0
  system_time_now := fun _ => 0

/-- a tiny concrete scheduler on which no operation ever completes; the
state counts polls and both clocks read it. -/
def idleSched : SchedOps Nat Nat where
  poll := fun s => s + 1
  schedule := fun s _ => (.ok (), s)
  has_completed := fun _ _ => false
  pack_result := fun s _ => (.error (Fail.new 1 "never packed"), s)
  take_key := fun s _ => s
  instant_now := fun s => s
  system_time_now := fun s => s

/-!
Theorems.
-/

section Claims

variable {σ τ ρ Sga Qr : Type}

/-- C7: on an initialized dispatcher, socket, bind, listen, accept,
connect and pushto return ENOTSUP on the Memory arm; create_pipe and
open_pipe return ENOTSUP on the Network arm; close, push, pop, sgaalloc
and sgafree are forwarded to whichever arm is active without a family
error. -/
theorem claim_C7_theorem (nops : NetworkOps σ Sga Qr) (mops : MemoryOps τ Sga Qr) :
    (∀ (m : τ) (d t p : Int),
      LibOS.socket nops (τ := τ) (.memoryLibOS m) d t p =
        (.error (Fail.new ENOTSUP "socket() is not supported on memory liboses"), .memoryLibOS m))
  ∧ (∀ (m : τ) (qd : QDesc) (a : SocketAddrV4),
      LibOS.bind nops (τ := τ) (.memoryLibOS m) qd a =
        (.error (Fail.new ENOTSUP "bind() is not supported on memory liboses"), .memoryLibOS m))
  ∧ (∀ (m : τ) (qd : QDesc) (b : Nat),
      LibOS.listen nops (τ := τ) (.memoryLibOS m) qd b =
        (.error (Fail.new ENOTSUP "listen() is not supported on memory liboses"), .memoryLibOS m))
  ∧ (∀ (m : τ) (qd : QDesc),
      LibOS.accept nops (τ := τ) (.memoryLibOS m) qd =
        (.error (Fail.new ENOTSUP "accept() is not supported on memory liboses"), .memoryLibOS m))
  ∧ (∀ (m : τ) (qd : QDesc) (a : SocketAddrV4),
      LibOS.connect nops (τ := τ) (.memoryLibOS m) qd a =
        (.error (Fail.new ENOTSUP "connect() is not supported on memory liboses"), .memoryLibOS m))
  ∧ (∀ (m : τ) (qd : QDesc) (sga : Sga) (a : SocketAddrV4),
      LibOS.pushto nops (τ := τ) (.memoryLibOS m) qd sga a =
        (.error (Fail.new ENOTSUP "pushto() is not supported on memory liboses"), .memoryLibOS m))
  ∧ (∀ (l : σ) (name : String),
      LibOS.create_pipe mops (σ := σ) (.networkLibOS l) name =
        (.error (Fail.new ENOTSUP "create_pipe() is not supported on network liboses"), .networkLibOS l))
  ∧ (∀ (l : σ) (name : String),
      LibOS.open_pipe mops (σ := σ) (.networkLibOS l) name =
        (.error (Fail.new ENOTSUP "open_pipe() is not supported on network liboses"), .networkLibOS l))
  ∧ (∀ (l : σ) (qd : QDesc),
      LibOS.close nops mops (.networkLibOS l) qd =
        ((nops.close l qd).1, .networkLibOS (nops.close l qd).2))
  ∧ (∀ (m : τ) (qd : QDesc),
      LibOS.close nops mops (.memoryLibOS m) qd =
        ((mops.close m qd).1, .memoryLibOS (mops.close m qd).2))
  ∧ (∀ (l : σ) (qd : QDesc) (sga : Sga),
      LibOS.push nops mops (.networkLibOS l) qd sga =
        ((nops.push l qd sga).1, .networkLibOS (nops.push l qd sga).2))
  ∧ (∀ (m : τ) (qd : QDesc) (sga : Sga),
      LibOS.push nops mops (.memoryLibOS m) qd sga =
        ((mops.push m qd sga).1, .memoryLibOS (mops.push m qd sga).2))
  ∧ (∀ (l : σ) (qd : QDesc),
      LibOS.pop nops mops (.networkLibOS l) qd =
        ((nops.pop l qd).1, .networkLibOS (nops.pop l qd).2))
  ∧ (∀ (m : τ) (qd : QDesc),
      LibOS.pop nops mops (.memoryLibOS m) qd =
        ((mops.pop m qd).1, .memoryLibOS (mops.pop m qd).2))
  ∧ (∀ (l : σ) (size : Nat),
      LibOS.sgaalloc nops mops (.networkLibOS l) size = nops.sgaalloc l size)
  ∧ (∀ (m : τ) (size : Nat),
      LibOS.sgaalloc nops mops (.memoryLibOS m) size = mops.sgaalloc m size)
  ∧ (∀ (l : σ) (sga : Sga),
      LibOS.sgafree nops mops (.networkLibOS l) sga = nops.sgafree l sga)
  ∧ (∀ (m : τ) (sga : Sga),
      LibOS.sgafree nops mops (.memoryLibOS m) sga = mops.sgafree m sga) := by
  refine ⟨?_, ?_, ?_, ?_, ?_, ?_, ?_, ?_, ?_, ?_, ?_, ?_, ?_, ?_, ?_, ?_, ?_, ?_⟩ <;>
    intros <;> rfl

/-- C6 helper: the wrapping u64 computation of `demi_timedwait` equals
the mathematical `tv_sec * 10^9 + tv_nsec` reduced modulo 2^64. -/
theorem timespec_abs_nanos_emod (tv_sec tv_nsec : Int) :
    timespec_abs_nanos tv_sec tv_nsec =
      ((tv_sec * 1000000000 + tv_nsec) % (18446744073709551616 : Int)).toNat := by
  have hA : (int_as_u64 tv_sec : Int) = tv_sec % 18446744073709551616 := by
    unfold int_as_u64
    exact Int.toNat_of_nonneg (Int.emod_nonneg _ (by norm_num))
  have hB : (int_as_u64 tv_nsec : Int) = tv_nsec % 18446744073709551616 := by
    unfold int_as_u64
    exact Int.toNat_of_nonneg (Int.emod_nonneg _ (by norm_num))
  unfold timespec_abs_nanos U64_MOD
  omega

/-- C9 helper: reading a u16 field whose memory bytes are b0, b1 and
byte-swapping it recovers the big-endian value. -/
theorem u16_from_be_bytes (b0 b1 : Nat) (h0 : b0 < 256) (h1 : b1 < 256) :
    u16_from_be (b0 + 256 * b1) = 256 * b0 + b1 := by
  unfold u16_from_be
  omega

/-- C9 helper: reading a u32 field whose memory bytes are b0..b3 and
byte-reversing it recovers the big-endian value. -/
theorem u32_from_be_bytes (b0 b1 b2 b3 : Nat)
    (h0 : b0 < 256) (h1 : b1 < 256) (h2 : b2 < 256) (h3 : b3 < 256) :
    u32_from_be (b0 + 256 * b1 + 65536 * b2 + 16777216 * b3) =
      16777216 * b0 + 65536 * b1 + 256 * b2 + b3 := by
  unfold u32_from_be
  omega

/-- C9 helper: the octets of a u32 assembled most-significant first. -/
theorem ipv4_from_u32_bytes (a b c d : Nat)
    (ha : a < 256) (hb : b < 256) (hc : c < 256) (hd : d < 256) :
    ipv4_from_u32 (16777216 * a + 65536 * b + 256 * c + d) = (a, b, c, d) := by
  unfold ipv4_from_u32
  refine Prod.ext ?_ (Prod.ext ?_ (Prod.ext ?_ ?_)) <;> simp <;> omega

/-- C9: the sockaddr-to-IPv4 conversion rejects non-AF_INET families
with ENOTSUP ("communication domain not supported"), and on an AF_INET
input yields the network-byte-order port and address fields converted
to host order (the port is bytes 0-1 big-endian, the address octets are
bytes 2-5 of sa_data). -/
theorem claim_C9_theorem :
    (∀ sa : CSockaddr, sa.sa_family ≠ AF_INET →
      sockaddr_to_socketaddrv4 sa = .error (Fail.new ENOTSUP "communication domain not supported"))
  ∧ (∀ b0 b1 b2 b3 b4 b5 : Nat, ∀ rest : List Nat,
      b0 < 256 → b1 < 256 → b2 < 256 → b3 < 256 → b4 < 256 → b5 < 256 →
      sockaddr_to_socketaddrv4 ⟨AF_INET, b0 :: b1 :: b2 :: b3 :: b4 :: b5 :: rest⟩ =
        .ok ⟨(b2, b3, b4, b5), 256 * b0 + b1⟩) := by
  constructor
  · intro sa h
    unfold sockaddr_to_socketaddrv4 sockaddr_transmute
    rw [if_pos h]
  · intro b0 b1 b2 b3 b4 b5 rest h0 h1 h2 h3 h4 h5
    unfold sockaddr_to_socketaddrv4 sockaddr_transmute get_addr_from_sock_addr_in
    rw [if_neg (by simp)]
    simp only [List.getD_cons_zero, List.getD_cons_succ]
    rw [u32_from_be_bytes b2 b3 b4 b5 h2 h3 h4 h5, ipv4_from_u32_bytes b2 b3 b4 b5 h2 h3 h4 h5,
      u16_from_be_bytes b0 b1 h0 h1]

/-- C9 witness: the AF_INET encoding of 127.0.0.1:80 (the source's own
test vector) converts to address 127.0.0.1 and port 80. -/
theorem claim_C9_witness :
    sockaddr_to_socketaddrv4 ⟨2, [0, 80, 127, 0, 0, 1, 0, 0, 0, 0, 0, 0, 0, 0]⟩ =
      .ok ⟨(127, 0, 0, 1), 256 * 0 + 80⟩ :=
  claim_C9_theorem.2 0 80 127 0 0 1 [0, 0, 0, 0, 0, 0, 0, 0]
    (by decide) (by decide) (by decide) (by decide) (by decide) (by decide)

/-- C6 counterexample: at tv_sec = 18446744074, tv_nsec = 0 the 64-bit
product tv_sec * 10^9 wraps modulo 2^64 to the small in-range value
290448384 ns; the computed deadline is neither the mathematical
UNIX_EPOCH + tv_sec * 10^9 + tv_nsec (which is representable here) nor
the clamped current time.  (sys_time_max = 2^75, now = 42.) -/
theorem claim_C6_counterexample :
    demi_timedwait_deadline 37778931862957161709568 42 18446744074 0 = 290448384
  ∧ spec_timedwait_deadline 37778931862957161709568 42 18446744074 0 = 18446744074000000000
  ∧ (290448384 : Nat) ≠ 18446744074000000000
  ∧ (290448384 : Nat) ≠ 42 := by
  refine ⟨?_, ?_, by decide, by decide⟩
  · rw [demi_timedwait_deadline, timespec_abs_nanos_emod]
    norm_num
    rfl
  · rw [spec_timedwait_deadline, if_pos (by norm_num)]
    norm_num
    rfl

/-- C6 (amended): the nanosecond count is the wrapping-u64 value
(tv_sec * 10^9 + tv_nsec) mod 2^64 — the 64-bit product can wrap —
and only an overflow of the SystemTime addition is clamped to the
current time; when tv_sec and tv_nsec are nonnegative, their
mathematical combination fits in 64 bits and the result is a
representable system time, the deadline is exact. -/
theorem claim_C6_theorem :
    (∀ tv_sec tv_nsec : Int,
      timespec_abs_nanos tv_sec tv_nsec =
        ((tv_sec * 1000000000 + tv_nsec) % (18446744073709551616 : Int)).toNat)
  ∧ (∀ (sys_time_max now : Nat) (tv_sec tv_nsec : Int),
      sys_time_max < timespec_abs_nanos tv_sec tv_nsec →
      demi_timedwait_deadline sys_time_max now tv_sec tv_nsec = now)
  ∧ (∀ (sys_time_max now : Nat) (tv_sec tv_nsec : Int),
      0 ≤ tv_sec → 0 ≤ tv_nsec →
      tv_sec * 1000000000 + tv_nsec < 18446744073709551616 →
      (tv_sec * 1000000000 + tv_nsec).toNat ≤ sys_time_max →
      demi_timedwait_deadline sys_time_max now tv_sec tv_nsec =
        (tv_sec * 1000000000 + tv_nsec).toNat) := by
  refine ⟨timespec_abs_nanos_emod, ?_, ?_⟩
  · intro M now s n h
    rw [demi_timedwait_deadline, if_neg (by omega)]
  · intro M now s n hs hn hlt hle
    have hv : timespec_abs_nanos s n = (s * 1000000000 + n).toNat := by
      rw [timespec_abs_nanos_emod]; omega
    rw [demi_timedwait_deadline, hv, if_pos hle]

/-- C6 witness: a small in-range timespec (1 s, 5 ns) yields the exact
deadline 1000000005 ns after the epoch. -/
theorem claim_C6_witness :
    demi_timedwait_deadline 100000000000000000000 0 1 5 = ((1 : Int) * 1000000000 + 5).toNat :=
  claim_C6_theorem.2.2 100000000000000000000 0 1 5
    (by decide) (by decide) (by decide) (by decide)

/-- helper: a successful return of the wait_any loop is produced by the
token scan of its final poll cycle. -/
theorem wait_any_loop_scan_state (ops : SchedOps σ ρ) (qts : List QToken)
    (timeout : Option Nat) (start : Nat) :
    ∀ (fuel : Nat) (s : σ) (i : Nat) (qr : ρ) (s' : σ),
      wait_any_loop ops qts timeout start s fuel = some (.ok (i, qr), s') →
      ∃ sc, wait_any_scan ops (ops.poll sc) qts.enum = (.ok (some (i, qr)), s') := by
  intro fuel
  induction fuel with
  | zero =>
    intro s i qr s' h
    simp [wait_any_loop] at h
  | succ n ih =>
    intro s i qr s' h
    rw [wait_any_loop] at h
    rcases hscan : wait_any_scan ops (ops.poll s) qts.enum with ⟨r, s2⟩
    match r with
    | .ok (some iqr) =>
      simp only [hscan, Option.some.injEq, Prod.mk.injEq, Except.ok.injEq] at h
      exact ⟨s, by rw [hscan, h.1, h.2]⟩
    | .error e => simp [hscan] at h
    | .ok none =>
      match timeout with
      | none =>
        simp only [hscan] at h
        exact ih s2 i qr s' h
      | some t =>
        simp only [hscan] at h
        by_cases hexp : ops.instant_now s2 - start > t
        · rw [if_pos hexp] at h
          simp at h
        · rw [if_neg hexp] at h
          exact ih s2 i qr s' h

/-- helper: the scan of a single-token list can only report offset 0. -/
theorem wait_any_scan_singleton_index (ops : SchedOps σ ρ) (s : σ) (qt : QToken)
    (i : Nat) (qr : ρ) (s' : σ)
    (h : wait_any_scan ops s [(0, qt)] = (.ok (some (i, qr)), s')) : i = 0 := by
  rw [wait_any_scan] at h
  rcases hs : ops.schedule s qt with ⟨r, s1⟩
  match r with
  | .error e => simp [hs] at h
  | .ok _ =>
    simp only [hs] at h
    by_cases hc : ops.has_completed s1 qt
    · rw [if_pos hc] at h
      rcases hp : ops.pack_result s1 qt with ⟨pr, s2⟩
      match pr with
      | .ok qr2 =>
        simp only [hp, Prod.mk.injEq, Except.ok.injEq, Option.some.injEq] at h
        exact h.1.1.symm
      | .error e => simp [hp] at h
    · rw [if_neg hc] at h
      simp [wait_any_scan] at h

/-- C4: wait(qt, timeout) returns exactly the result of
wait_any([qt], timeout): the same queue result with the pair's index
component equal to 0 on success, the same error on failure, and
divergence (fuel exhaustion) exactly when wait_any diverges. -/
theorem claim_C4_theorem (ops : SchedOps σ ρ) (s : σ) (qt : QToken)
    (timeout : Option Nat) (fuel : Nat) :
    (∀ (qr : ρ) (s' : σ),
      wait ops s qt timeout fuel = some (.ok qr, s') ↔
        wait_any ops s [qt] timeout fuel = some (.ok (0, qr), s'))
  ∧ (∀ (e : Fail) (s' : σ),
      wait ops s qt timeout fuel = some (.error e, s') ↔
        wait_any ops s [qt] timeout fuel = some (.error e, s'))
  ∧ (wait ops s qt timeout fuel = none ↔ wait_any ops s [qt] timeout fuel = none) := by
  have hidx : ∀ (i : Nat) (qr : ρ) (s' : σ),
      wait_any ops s [qt] timeout fuel = some (.ok (i, qr), s') → i = 0 := by
    intro i qr s' h
    obtain ⟨sc, hscan⟩ := wait_any_loop_scan_state ops [qt] timeout _ fuel s i qr s' h
    exact wait_any_scan_singleton_index ops (ops.poll sc) qt i qr s' hscan
  refine ⟨?_, ?_, ?_⟩
  · intro qr s'
    unfold wait
    rcases hwa : wait_any ops s [qt] timeout fuel with _ | ⟨r, s''⟩
    · simp
    · match r with
      | .ok (i, qr2) =>
        have h0 : i = 0 := hidx i qr2 s'' hwa
        subst h0
        simp
      | .error e => simp
  · intro e s'
    unfold wait
    rcases hwa : wait_any ops s [qt] timeout fuel with _ | ⟨r, s''⟩
    · simp
    · match r with
      | .ok (i, qr2) => simp
      | .error e2 => simp
  · unfold wait
    rcases hwa : wait_any ops s [qt] timeout fuel with _ | ⟨r, s''⟩
    · simp
    · match r with
      | .ok (i, qr2) => simp
      | .error e2 => simp

/-- C4 witness: on the demo scheduler, waiting on the completed token 7
yields exactly the wait_any result with offset 0. -/
theorem claim_C4_witness :
    wait demoSched () 7 none 1 = some (.ok 42, ()) ↔
      wait_any demoSched () [7] none 1 = some (.ok (0, 42), ()) :=
  (claim_C4_theorem demoSched () 7 none 1).1 42 ()

/-- helper: under the handle-lifecycle contract (resolving a handle and
returning its key do not change completion statuses), a scan that
returns offset `i` found the first completed token of the cycle, where
statuses are read at any state `sb` agreeing with the scan's start. -/
theorem wait_any_scan_min (ops : SchedOps σ ρ)
    (hsched : ∀ (s : σ) (q q' : QToken),
      ops.has_completed (ops.schedule s q).2 q' = ops.has_completed s q')
    (hkey : ∀ (s : σ) (q q' : QToken),
      ops.has_completed (ops.take_key s q) q' = ops.has_completed s q')
    (sb : σ) :
    ∀ (qts : List QToken) (k : Nat) (s : σ),
      (∀ q, ops.has_completed s q = ops.has_completed sb q) →
      ∀ (i : Nat) (qr : ρ) (s' : σ),
        wait_any_scan ops s (List.enumFrom k qts) = (.ok (some (i, qr)), s') →
        k ≤ i ∧ i - k < qts.length ∧
        ops.has_completed sb (qts.getD (i - k) 0) = true ∧
        ∀ j, j < i - k → ops.has_completed sb (qts.getD j 0) = false := by
  intro qts
  induction qts with
  | nil =>
    intro k s hag i qr s' h
    simp [List.enumFrom, wait_any_scan] at h
  | cons qt rest ih =>
    intro k s hag i qr s' h
    rw [List.enumFrom, wait_any_scan] at h
    rcases hs : ops.schedule s qt with ⟨r, s1⟩
    have hs1 : ∀ q', ops.has_completed s1 q' = ops.has_completed sb q' := by
      intro q'
      have hh := hsched s qt q'
      rw [hs] at hh
      rw [show s1 = (r, s1).2 from rfl, hh, hag]
    match r with
    | .error e => simp [hs] at h
    | .ok _ =>
      simp only [hs] at h
      by_cases hc : ops.has_completed s1 qt = true
      · rw [if_pos hc] at h
        rcases hp : ops.pack_result s1 qt with ⟨pr, s2⟩
        match pr with
        | .ok qr2 =>
          simp only [hp, Prod.mk.injEq, Except.ok.injEq, Option.some.injEq] at h
          obtain ⟨⟨hik, _⟩, _⟩ := h
          subst hik
          refine ⟨Nat.le_refl k, by simp, ?_, ?_⟩
          · simp only [Nat.sub_self, List.getD_cons_zero]
            rw [← hs1 qt]
            exact hc
          · intro j hj
            omega
        | .error e => simp [hp] at h
      · rw [if_neg hc] at h
        rw [Bool.not_eq_true] at hc
        have hagr : ∀ q, ops.has_completed (ops.take_key s1 qt) q = ops.has_completed sb q := by
          intro q
          rw [hkey, hs1]
        obtain ⟨h1, h2, h3, h4⟩ := ih (k + 1) (ops.take_key s1 qt) hagr i qr s' h
        have hik : i - k = (i - (k + 1)) + 1 := by omega
        refine ⟨by omega, by simp only [List.length_cons]; omega, ?_, ?_⟩
        · rw [hik, List.getD_cons_succ]
          exact h3
        · intro j hj
          match j with
          | 0 =>
            simp only [List.getD_cons_zero]
            rw [← hs1 qt]
            exact hc
          | j' + 1 =>
            simp only [List.getD_cons_succ]
            exact h4 j' (by omega)

/-- C3: whenever wait_any returns (i, qr), the scan of its final poll
cycle — read at that cycle's post-poll state sc, with completion
statuses stable under the schedule/take_key handle dance — produced i,
and i is the least index of qts whose token had completed: qts[i] is
completed at sc and no index below i is. -/
theorem claim_C3_theorem (ops : SchedOps σ ρ)
    (hsched : ∀ (s : σ) (q q' : QToken),
      ops.has_completed (ops.schedule s q).2 q' = ops.has_completed s q')
    (hkey : ∀ (s : σ) (q q' : QToken),
      ops.has_completed (ops.take_key s q) q' = ops.has_completed s q')
    (s : σ) (qts : List QToken) (timeout : Option Nat) (fuel : Nat)
    (i : Nat) (qr : ρ) (s' : σ)
    (h : wait_any ops s qts timeout fuel = some (.ok (i, qr), s')) :
    ∃ sc, wait_any_scan ops sc qts.enum = (.ok (some (i, qr)), s') ∧
      i < qts.length ∧ ops.has_completed sc (qts.getD i 0) = true ∧
      ∀ j, j < i → ops.has_completed sc (qts.getD j 0) = false := by
  rw [wait_any] at h
  obtain ⟨sc0, hscan⟩ :=
    wait_any_loop_scan_state ops qts timeout (ops.instant_now s) fuel s i qr s' h
  refine ⟨ops.poll sc0, hscan, ?_⟩
  have henum : qts.enum = List.enumFrom 0 qts := rfl
  rw [henum] at hscan
  obtain ⟨h1, h2, h3, h4⟩ :=
    wait_any_scan_min ops hsched hkey (ops.poll sc0) qts 0 (ops.poll sc0)
      (fun q => rfl) i qr s' hscan
  rw [Nat.sub_zero] at h2 h3
  refine ⟨h2, h3, ?_⟩
  intro j hj
  exact h4 j (by omega)

/-- C3 witness: on the demo scheduler with tokens [5, 7], only token 7
is completed, and wait_any returns offset 1 = min of the ready set. -/
theorem claim_C3_witness :
    ∃ sc, wait_any_scan demoSched sc ([5, 7] : List QToken).enum = (.ok (some (1, 42)), ()) ∧
      1 < ([5, 7] : List QToken).length ∧
      demoSched.has_completed sc (([5, 7] : List QToken).getD 1 0) = true ∧
      ∀ j, j < 1 → demoSched.has_completed sc (([5, 7] : List QToken).getD j 0) = false :=
  claim_C3_theorem demoSched (fun _ _ _ => rfl) (fun _ _ _ => rfl)
    () [5, 7] none 1 1 42 () rfl

/-- helper: the timedwait loop with a Some deadline is the shared
poll/check/pack skeleton with the expiry predicate
`SystemTime::now() >= abstime`. -/
theorem timedwait_loop_eq_poll_check (ops : SchedOps σ ρ) (qt : QToken) (T : Nat) :
    ∀ (fuel : Nat) (s : σ),
      timedwait_loop ops qt (some T) s fuel =
        poll_check_loop ops qt (fun s1 => decide (ops.system_time_now s1 ≥ T)) s fuel := by
  intro fuel
  induction fuel with
  | zero => intro s; rfl
  | succ n ih =>
    intro s
    rw [timedwait_loop, poll_check_loop]
    by_cases hc : ops.has_completed (ops.poll s) qt = true
    · simp [hc]
    · by_cases ht : ops.system_time_now (ops.poll s) ≥ T
      · simp [hc, ht]
      · simp [hc, ht]
        exact ih (ops.poll s)

/-- helper: under a state-neutral handle dance (schedule succeeds and
leaves the state unchanged; take_key restores it), the wait_any loop on
a single token is the shared skeleton with the expiry predicate
`Instant::now() - start > timeout`, up to tagging the result with
offset 0. -/
theorem wait_any_loop_singleton_poll_check (ops : SchedOps σ ρ) (qt : QToken) (d start : Nat)
    (hsched : ∀ s, ops.schedule s qt = (.ok (), s))
    (hkey : ∀ s, ops.take_key s qt = s) :
    ∀ (fuel : Nat) (s : σ),
      wait_any_loop ops [qt] (some d) start s fuel =
        Option.map (fun rs => (Except.map (fun qr => ((0 : Nat), qr)) rs.1, rs.2))
          (poll_check_loop ops qt (fun s1 => decide (ops.instant_now s1 - start > d)) s fuel) := by
  intro fuel
  induction fuel with
  | zero => intro s; rfl
  | succ n ih =>
    intro s
    rw [wait_any_loop, poll_check_loop]
    have henum : ([qt] : List QToken).enum = [(0, qt)] := rfl
    rw [henum]
    simp only [wait_any_scan, hsched, hkey]
    by_cases hc : ops.has_completed (ops.poll s) qt = true
    · rcases hp : ops.pack_result (ops.poll s) qt with ⟨pr, s2⟩
      match pr with
      | .ok qr2 => simp [hc, hp, Except.map]
      | .error e => simp [hc, hp, Except.map]
    · by_cases hexp : ops.instant_now (ops.poll s) - start > d
      · simp [hc, hexp, hkey, Except.map]
      · simp [hc, hexp]
        exact ih (ops.poll s)

/-- C5: under the scheduler-handle contract (resolving the handle and
returning its key are state-neutral), timedwait(qt, Some T) and
wait(qt, Some d) are the same poll / check-completion / pack-on-completion
/ take-key-then-ETIMEDOUT loop, differing only in the expiry condition:
`SystemTime::now() >= abstime` for timedwait versus
`Instant::now() - start > timeout` for wait. -/
theorem claim_C5_theorem (ops : SchedOps σ ρ) (qt : QToken)
    (hsched : ∀ s, ops.schedule s qt = (.ok (), s))
    (hkey : ∀ s, ops.take_key s qt = s) :
    (∀ (T : Nat) (s : σ) (fuel : Nat),
      timedwait ops s qt (some T) fuel =
        poll_check_loop ops qt (fun s1 => decide (ops.system_time_now s1 ≥ T)) s fuel)
  ∧ (∀ (d : Nat) (s : σ) (fuel : Nat),
      wait ops s qt (some d) fuel =
        poll_check_loop ops qt
          (fun s1 => decide (ops.instant_now s1 - ops.instant_now s > d)) s fuel) := by
  constructor
  · intro T s fuel
    rw [timedwait]
    simp only [hsched]
    exact timedwait_loop_eq_poll_check ops qt T fuel s
  · intro d s fuel
    rw [wait, wait_any]
    rw [wait_any_loop_singleton_poll_check ops qt d (ops.instant_now s) hsched hkey fuel s]
    rcases hpc : poll_check_loop ops qt
        (fun s1 => decide (ops.instant_now s1 - ops.instant_now s > d)) s fuel with _ | ⟨r, s'⟩
    · rfl
    · match r with
      | .ok qr => rfl
      | .error e => rfl

/-- C5 witness: the equations at a concrete idle scheduler, token 9,
deadline/timeout 5 and three poll cycles of fuel. -/
theorem claim_C5_witness :
    (timedwait idleSched 0 9 (some 5) 3 =
      poll_check_loop idleSched 9 (fun s1 => decide (idleSched.system_time_now s1 ≥ 5)) 0 3)
  ∧ (wait idleSched 0 9 (some 5) 3 =
      poll_check_loop idleSched 9
        (fun s1 => decide (idleSched.instant_now s1 - idleSched.instant_now 0 > 5)) 0 3) :=
  ⟨(claim_C5_theorem idleSched 9 (fun _ => rfl) (fun _ => rfl)).1 5 0 3,
   (claim_C5_theorem idleSched 9 (fun _ => rfl) (fun _ => rfl)).2 5 0 3⟩

/-- helper: with an untimed wait on a token that never completes (and
whose schedule keeps succeeding), the wait_any loop never returns. -/
theorem wait_any_loop_untimed_spin (ops : SchedOps σ ρ) (qt : QToken) (start : Nat)
    (hok : ∀ s, (ops.schedule s qt).1 = .ok ())
    (hnc : ∀ s, ops.has_completed s qt = false) :
    ∀ (fuel : Nat) (s : σ), wait_any_loop ops [qt] none start s fuel = none := by
  intro fuel
  induction fuel with
  | zero => intro s; rfl
  | succ n ih =>
    intro s
    rw [wait_any_loop]
    have henum : ([qt] : List QToken).enum = [(0, qt)] := rfl
    rw [henum]
    rcases hs : ops.schedule (ops.poll s) qt with ⟨r, s1⟩
    have hr : r = .ok () := by
      have hh := hok (ops.poll s)
      rw [hs] at hh
      simpa using hh
    subst hr
    simp only [wait_any_scan, hs, hnc, Bool.false_eq_true, if_false]
    exact ih (ops.take_key s1 qt)

/-- C10: for a token whose operation never completes, timedwait with a
None abstime polls once, returns the operation's key to the scheduler,
and returns ETIMEDOUT immediately (whatever fuel remains), whereas
wait with a None timeout never returns: an absent deadline means
"expire now" for timedwait but "wait forever" for wait. -/
theorem claim_C10_theorem (ops : SchedOps σ ρ) (qt : QToken)
    (hok : ∀ s, (ops.schedule s qt).1 = .ok ())
    (hnc : ∀ s, ops.has_completed s qt = false) :
    (∀ (fuel : Nat) (s : σ),
      timedwait ops s qt none (fuel + 1) =
        some (.error (Fail.new ETIMEDOUT "timer expired"),
          ops.take_key (ops.poll (ops.schedule s qt).2) qt))
  ∧ (∀ (fuel : Nat) (s : σ), wait ops s qt none fuel = none) := by
  constructor
  · intro fuel s
    rcases hs : ops.schedule s qt with ⟨r, s1⟩
    have hr : r = .ok () := by
      have hh := hok s
      rw [hs] at hh
      simpa using hh
    subst hr
    rw [timedwait]
    simp only [hs, timedwait_loop, hnc, Bool.false_eq_true, if_false]
  · intro fuel s
    have hspin := wait_any_loop_untimed_spin ops qt (ops.instant_now s) hok hnc fuel s
    rw [wait, wait_any]
    rw [hspin]

/-- C10 witness: on the idle scheduler (nothing ever completes),
timedwait with no deadline expires after a single poll while wait with
no timeout exhausts any amount of fuel. -/
theorem claim_C10_witness :
    (timedwait idleSched 0 9 none (3 + 1) =
      some (.error (Fail.new ETIMEDOUT "timer expired"),
        idleSched.take_key (idleSched.poll (idleSched.schedule 0 9).2) 9))
  ∧ (wait idleSched 0 9 none 5 = none) :=
  ⟨(claim_C10_theorem idleSched 9 (fun _ => rfl) (fun _ => rfl)).1 3 0,
   (claim_C10_theorem idleSched 9 (fun _ => rfl) (fun _ => rfl)).2 5 0⟩

/-- helper: a borrowed singleton makes do_syscall fail with EBUSY. -/
theorem do_syscall_borrowed {Λ β : Type} (c : Option Λ) (f : Λ → β × Λ) :
    do_syscall ⟨c, true⟩ f = (.error (Fail.new EBUSY "Demikernel is busy"), ⟨c, true⟩) := rfl

/-- helper: an uninitialized, unborrowed singleton makes do_syscall fail
with ENOSYS. -/
theorem do_syscall_uninit {Λ β : Type} (f : Λ → β × Λ) :
    do_syscall (⟨none, false⟩ : Singleton Λ) f =
      (.error (Fail.new ENOSYS "Demikernel is not initialized"), ⟨none, false⟩) := rfl

/-- helper: an initialized, unborrowed singleton runs the dispatched
closure exactly once under the borrow, which is released afterwards. -/
theorem do_syscall_run {Λ β : Type} (l : Λ) (f : Λ → β × Λ) :
    do_syscall ⟨some l, false⟩ f = (.ok (f l).1, ⟨some (f l).2, false⟩) := by
  unfold do_syscall
  rcases hf : f l with ⟨r, l'⟩
  simp [hf]

/-- C1 counterexample: when LibOS construction fails (CONFIG_PATH
missing, errno EINVAL = 22), demi_init returns -22 — a strictly
negative status, not a positive errno. -/
theorem claim_C1_counterexample :
    (demi_init (fun _ => ()) none ⟨none, false⟩).1 = -22
  ∧ ¬ ((demi_init (fun _ => ()) none ⟨none, false⟩).1 = 0
        ∨ 0 < (demi_init (fun _ => ()) none ⟨none, false⟩).1) := by
  constructor
  · rfl
  · decide

/-- helper: the one-out-pointer epilogue returns 0 or a positive errno
whenever the dispatched closure does. -/
theorem run_out_syscall_status {Λ κ : Type} (cell : Singleton Λ)
    (f : Λ → (Int × Option κ) × Λ) (hf : ∀ l, StatusOk ((f l).1).1) :
    StatusOk (run_out_syscall cell f).1 := by
  rcases cell with ⟨contents, borrowed⟩
  match borrowed with
  | true => exact Or.inr (show (0 : Int) < EBUSY by decide)
  | false =>
    match contents with
    | none => exact Or.inr (show (0 : Int) < ENOSYS by decide)
    | some l =>
      unfold run_out_syscall
      rw [do_syscall_run]
      rcases hf2 : f l with ⟨⟨st, out⟩, l'⟩
      have h := hf l
      rw [hf2] at h
      simp only [hf2]
      exact h

/-- helper: the no-out-pointer epilogue returns 0 or a positive errno
whenever the dispatched closure does. -/
theorem run_status_syscall_status {Λ : Type} (cell : Singleton Λ)
    (f : Λ → Int × Λ) (hf : ∀ l, StatusOk (f l).1) :
    StatusOk (run_status_syscall cell f).1 := by
  rcases cell with ⟨contents, borrowed⟩
  match borrowed with
  | true => exact Or.inr (show (0 : Int) < EBUSY by decide)
  | false =>
    match contents with
    | none => exact Or.inr (show (0 : Int) < ENOSYS by decide)
    | some l =>
      unfold run_status_syscall
      rw [do_syscall_run]
      rcases hf2 : f l with ⟨st, l'⟩
      have h := hf l
      rw [hf2] at h
      simp only [hf2]
      exact h

/-- helper: the two-out-pointer epilogue returns 0 or a positive errno
whenever the dispatched closure does. -/
theorem run_out2_syscall_status {Λ κ : Type} (cell : Singleton Λ)
    (f : Λ → (Int × Option κ × Option Int) × Λ) (hf : ∀ l, StatusOk ((f l).1).1) :
    StatusOk (run_out2_syscall cell f).1 := by
  rcases cell with ⟨contents, borrowed⟩
  match borrowed with
  | true => exact Or.inr (show (0 : Int) < EBUSY by decide)
  | false =>
    match contents with
    | none => exact Or.inr (show (0 : Int) < ENOSYS by decide)
    | some l =>
      unfold run_out2_syscall
      rw [do_syscall_run]
      rcases hf2 : f l with ⟨⟨st, out1, out2⟩, l'⟩
      have h := hf l
      rw [hf2] at h
      simp only [hf2]
      exact h

/-- helper: the sockaddr conversion either succeeds or fails with the
ENOTSUP family error. -/
theorem sockaddr_to_socketaddrv4_cases (sa : CSockaddr) :
    (∃ ep, sockaddr_to_socketaddrv4 sa = .ok ep)
  ∨ sockaddr_to_socketaddrv4 sa =
      .error (Fail.new ENOTSUP "communication domain not supported") := by
  unfold sockaddr_to_socketaddrv4 sockaddr_transmute
  by_cases h : sa.sa_family ≠ AF_INET
  · right
    rw [if_pos h]
  · left
    rw [if_neg h]
    exact ⟨_, rfl⟩

/-- C1 (amended): every entry point other than demi_init returns 0 on
success or a strictly positive errno on failure (given the §6 backend
contract that dispatched failures carry positive errnos); demi_init
returns 0 on success but the NEGATED errno — a strictly negative value,
-EINVAL = -22 for a missing CONFIG_PATH — when LibOS construction
fails. -/
theorem claim_C1_theorem {Λ Sga Qr : Type} (api : LibOSApi Λ Sga Qr)
    (hpos : ApiPositive api) :
    (∀ (mk : String → Λ) (p : String) (cell : Singleton Λ),
      (demi_init mk (some p) cell).1 = 0)
  ∧ (∀ (mk : String → Λ) (cell : Singleton Λ),
      (demi_init mk none cell).1 = -EINVAL ∧ (demi_init mk none cell).1 < 0)
  ∧ (∀ (cell : Singleton Λ) (name : Option String),
      StatusOk (demi_create_pipe api cell name).1)
  ∧ (∀ (cell : Singleton Λ) (name : Option String),
      StatusOk (demi_open_pipe api cell name).1)
  ∧ (∀ (cell : Singleton Λ) (d t p : Int), StatusOk (demi_socket api cell d t p).1)
  ∧ (∀ (cell : Singleton Λ) (qd : Int) (saddr : Option CSockaddr) (size : Nat),
      StatusOk (demi_bind api cell qd saddr size).1)
  ∧ (∀ (cell : Singleton Λ) (qd b : Int), StatusOk (demi_listen api cell qd b).1)
  ∧ (∀ (cell : Singleton Λ) (qd : Int), StatusOk (demi_accept api cell qd).1)
  ∧ (∀ (cell : Singleton Λ) (qd : Int) (saddr : Option CSockaddr) (size : Nat),
      StatusOk (demi_connect api cell qd saddr size).1)
  ∧ (∀ (cell : Singleton Λ) (qd : Int), StatusOk (demi_close api cell qd).1)
  ∧ (∀ (cell : Singleton Λ) (qd : Int) (sg : Option Sga) (saddr : Option CSockaddr)
      (size : Nat), StatusOk (demi_pushto api cell qd sg saddr size).1)
  ∧ (∀ (cell : Singleton Λ) (qd : Int) (sg : Option Sga),
      StatusOk (demi_push api cell qd sg).1)
  ∧ (∀ (cell : Singleton Λ) (qd : Int), StatusOk (demi_pop api cell qd).1)
  ∧ (∀ (cell : Singleton Λ) (b : Bool) (qt : QToken) (ts : Option (Int × Int))
      (M now : Nat), StatusOk (demi_timedwait api cell b qt ts M now).1)
  ∧ (∀ (cell : Singleton Λ) (b : Bool) (qt : QToken) (ts : Option (Int × Int)),
      StatusOk (demi_wait api cell b qt ts).1)
  ∧ (∀ (cell : Singleton Λ) (qts : List QToken) (n : Int) (ts : Option (Int × Int)),
      StatusOk (demi_wait_any api cell qts n ts).1)
  ∧ (∀ (cell : Singleton Λ) (sg : Option Sga), StatusOk (demi_sgafree api cell sg).1) := by
  refine ⟨?_, ?_, ?_, ?_, ?_, ?_, ?_, ?_, ?_, ?_, ?_, ?_, ?_, ?_, ?_, ?_, ?_⟩
  · intro mk p cell
    rfl
  · intro mk cell
    exact ⟨rfl, show (-EINVAL : Int) < 0 by decide⟩
  · intro cell name
    match name with
    | none => exact Or.inr (show (0 : Int) < EINVAL by decide)
    | some nm =>
      refine run_out_syscall_status cell _ ?_
      intro l
      rcases ha : api.create_pipe l nm with ⟨r, l'⟩
      match r with
      | .ok v => simp [ha, StatusOk]
      | .error e =>
        have hp := hpos.create_pipe l nm
        rw [ha] at hp
        simp only [ha, StatusOk]
        exact Or.inr hp
  · intro cell name
    match name with
    | none => exact Or.inr (show (0 : Int) < EINVAL by decide)
    | some nm =>
      refine run_out_syscall_status cell _ ?_
      intro l
      rcases ha : api.open_pipe l nm with ⟨r, l'⟩
      match r with
      | .ok v => simp [ha, StatusOk]
      | .error e =>
        have hp := hpos.open_pipe l nm
        rw [ha] at hp
        simp only [ha, StatusOk]
        exact Or.inr hp
  · intro cell d t p
    refine run_out_syscall_status cell _ ?_
    intro l
    rcases ha : api.socket l d t p with ⟨r, l'⟩
    match r with
    | .ok v => simp [ha, StatusOk]
    | .error e =>
      have hp := hpos.socket l d t p
      rw [ha] at hp
      simp only [ha, StatusOk]
      exact Or.inr hp
  · intro cell qd saddr size
    match saddr with
    | none => exact Or.inr (show (0 : Int) < EINVAL by decide)
    | some sa =>
      simp only [demi_bind]
      by_cases hsz : size = sockaddr_in_size
      · rw [if_neg (not_not_intro hsz)]
        rcases sockaddr_to_socketaddrv4_cases sa with ⟨ep, hc⟩ | hc
        · rw [hc]
          refine run_status_syscall_status cell _ ?_
          intro l
          rcases ha : api.bind l qd ep with ⟨r, l'⟩
          match r with
          | .ok v => simp [ha, StatusOk]
          | .error e =>
            have hp := hpos.bind l qd ep
            rw [ha] at hp
            simp only [ha, StatusOk]
            exact Or.inr hp
        · rw [hc]
          exact Or.inr (show (0 : Int) < ENOTSUP by decide)
      · rw [if_pos hsz]
        exact Or.inr (show (0 : Int) < EINVAL by decide)
  · intro cell qd b
    simp only [demi_listen]
    by_cases hb : b < 1
    · rw [if_pos hb]
      exact Or.inr (show (0 : Int) < EINVAL by decide)
    · rw [if_neg hb]
      refine run_status_syscall_status cell _ ?_
      intro l
      rcases ha : api.listen l qd b.toNat with ⟨r, l'⟩
      match r with
      | .ok v => simp [ha, StatusOk]
      | .error e =>
        have hp := hpos.listen l qd b.toNat
        rw [ha] at hp
        simp only [ha, StatusOk]
        exact Or.inr hp
  · intro cell qd
    refine run_out_syscall_status cell _ ?_
    intro l
    rcases ha : api.accept l qd with ⟨r, l'⟩
    match r with
    | .ok v => simp [ha, StatusOk]
    | .error e =>
      have hp := hpos.accept l qd
      rw [ha] at hp
      simp only [ha, StatusOk]
      exact Or.inr hp
  · intro cell qd saddr size
    match saddr with
    | none => exact Or.inr (show (0 : Int) < EINVAL by decide)
    | some sa =>
      simp only [demi_connect]
      by_cases hsz : size = sockaddr_in_size
      · rw [if_neg (not_not_intro hsz)]
        rcases sockaddr_to_socketaddrv4_cases sa with ⟨ep, hc⟩ | hc
        · rw [hc]
          refine run_out_syscall_status cell _ ?_
          intro l
          rcases ha : api.connect l qd ep with ⟨r, l'⟩
          match r with
          | .ok v => simp [ha, StatusOk]
          | .error e =>
            have hp := hpos.connect l qd ep
            rw [ha] at hp
            simp only [ha, StatusOk]
            exact Or.inr hp
        · rw [hc]
          exact Or.inr (show (0 : Int) < ENOTSUP by decide)
      · rw [if_pos hsz]
        exact Or.inr (show (0 : Int) < EINVAL by decide)
  · intro cell qd
    refine run_status_syscall_status cell _ ?_
    intro l
    rcases ha : api.close l qd with ⟨r, l'⟩
    match r with
    | .ok v => simp [ha, StatusOk]
    | .error e =>
      have hp := hpos.close l qd
      rw [ha] at hp
      simp only [ha, StatusOk]
      exact Or.inr hp
  · intro cell qd sg saddr size
    match sg with
    | none => exact Or.inr (show (0 : Int) < EINVAL by decide)
    | some sga =>
      match saddr with
      | none => exact Or.inr (show (0 : Int) < EINVAL by decide)
      | some sa =>
        simp only [demi_pushto]
        by_cases hsz : size = sockaddr_in_size
        · rw [if_neg (not_not_intro hsz)]
          rcases sockaddr_to_socketaddrv4_cases sa with ⟨ep, hc⟩ | hc
          · rw [hc]
            refine run_out_syscall_status cell _ ?_
            intro l
            rcases ha : api.pushto l qd sga ep with ⟨r, l'⟩
            match r with
            | .ok v => simp [ha, StatusOk]
            | .error e =>
              have hp := hpos.pushto l qd sga ep
              rw [ha] at hp
              simp only [ha, StatusOk]
              exact Or.inr hp
          · rw [hc]
            exact Or.inr (show (0 : Int) < ENOTSUP by decide)
        · rw [if_pos hsz]
          exact Or.inr (show (0 : Int) < EINVAL by decide)
  · intro cell qd sg
    match sg with
    | none => exact Or.inr (show (0 : Int) < EINVAL by decide)
    | some sga =>
      refine run_out_syscall_status cell _ ?_
      intro l
      rcases ha : api.push l qd sga with ⟨r, l'⟩
      match r with
      | .ok v => simp [ha, StatusOk]
      | .error e =>
        have hp := hpos.push l qd sga
        rw [ha] at hp
        simp only [ha, StatusOk]
        exact Or.inr hp
  · intro cell qd
    refine run_out_syscall_status cell _ ?_
    intro l
    rcases ha : api.pop l qd with ⟨r, l'⟩
    match r with
    | .ok v => simp [ha, StatusOk]
    | .error e =>
      have hp := hpos.pop l qd
      rw [ha] at hp
      simp only [ha, StatusOk]
      exact Or.inr hp
  · intro cell b qt ts M now
    match ts with
    | none => exact Or.inr (show (0 : Int) < EINVAL by decide)
    | some (tv_sec, tv_nsec) =>
      refine run_out_syscall_status cell _ ?_
      intro l
      rcases ha : api.timedwait l qt
          (some (demi_timedwait_deadline M now tv_sec tv_nsec)) with ⟨r, l'⟩
      match r with
      | .ok v => simp [ha, StatusOk]
      | .error e =>
        have hp := hpos.timedwait l qt (some (demi_timedwait_deadline M now tv_sec tv_nsec))
        rw [ha] at hp
        simp only [ha, StatusOk]
        exact Or.inr hp
  · intro cell b qt ts
    match ts with
    | none =>
      refine run_out_syscall_status cell _ ?_
      intro l
      rcases ha : api.wait l qt none with ⟨r, l'⟩
      match r with
      | .ok v => simp [ha, StatusOk]
      | .error e =>
        have hp := hpos.wait l qt none
        rw [ha] at hp
        simp only [ha, StatusOk]
        exact Or.inr hp
    | some (tv_sec, tv_nsec) =>
      refine run_out_syscall_status cell _ ?_
      intro l
      rcases ha : api.wait l qt (some (demi_wait_duration tv_sec tv_nsec)) with ⟨r, l'⟩
      match r with
      | .ok v => simp [ha, StatusOk]
      | .error e =>
        have hp := hpos.wait l qt (some (demi_wait_duration tv_sec tv_nsec))
        rw [ha] at hp
        simp only [ha, StatusOk]
        exact Or.inr hp
  · intro cell qts n ts
    match ts with
    | none =>
      simp only [demi_wait_any]
      by_cases hn : n < 0
      · rw [if_pos hn]
        exact Or.inr (show (0 : Int) < EINVAL by decide)
      · rw [if_neg hn]
        refine run_out2_syscall_status cell _ ?_
        intro l
        rcases ha : api.wait_any l qts none with ⟨r, l'⟩
        match r with
        | .ok (ix, qr) => simp [ha, StatusOk]
        | .error e =>
          have hp := hpos.wait_any l qts none
          rw [ha] at hp
          simp only [ha, StatusOk]
          exact Or.inr hp
    | some (tv_sec, tv_nsec) =>
      simp only [demi_wait_any]
      by_cases hn : n < 0
      · rw [if_pos hn]
        exact Or.inr (show (0 : Int) < EINVAL by decide)
      · rw [if_neg hn]
        refine run_out2_syscall_status cell _ ?_
        intro l
        rcases ha : api.wait_any l qts (some (demi_wait_duration tv_sec tv_nsec)) with ⟨r, l'⟩
        match r with
        | .ok (ix, qr) => simp [ha, StatusOk]
        | .error e =>
          have hp := hpos.wait_any l qts (some (demi_wait_duration tv_sec tv_nsec))
          rw [ha] at hp
          simp only [ha, StatusOk]
          exact Or.inr hp
  · intro cell sg
    match sg with
    | none => exact Or.inr (show (0 : Int) < EINVAL by decide)
    | some sga =>
      refine run_status_syscall_status cell _ ?_
      intro l
      rcases ha : api.sgafree l sga with e | v
      · have hp := hpos.sgafree l sga
        rw [ha] at hp
        simp only [ha, StatusOk]
        exact Or.inr hp
      · simp [ha, StatusOk]

/-- C1 witness: on the demo LibOS, the failing accept still returns a
positive errno, and demi_init with a missing CONFIG_PATH returns the
strictly negative status -EINVAL. -/
theorem claim_C1_witness :
    StatusOk (demi_accept demoApi ⟨some (), false⟩ 3).1
  ∧ (demi_init (fun _ : String => ()) none ⟨none, false⟩).1 = -EINVAL
  ∧ (demi_init (fun _ : String => ()) none ⟨none, false⟩).1 < 0 := by
  have h := claim_C1_theorem demoApi
    (by
      constructor <;> intros <;>
        first
          | trivial
          | exact (show (0 : Int) < 95 by decide)
          | exact (show (0 : Int) < 110 by decide))
  exact ⟨h.2.2.2.2.2.2.2.1 ⟨some (), false⟩ 3,
    (h.2.1 (fun _ => ()) ⟨none, false⟩).1,
    (h.2.1 (fun _ => ()) ⟨none, false⟩).2⟩

/-- helper: the one-out-pointer epilogue writes nothing when the status
is non-zero, provided the closure itself does not. -/
theorem run_out_syscall_fail_none {Λ κ : Type} (cell : Singleton Λ)
    (f : Λ → (Int × Option κ) × Λ)
    (hf : ∀ l, ((f l).1).1 ≠ 0 → ((f l).1).2 = none)
    (h : (run_out_syscall cell f).1 ≠ 0) :
    (run_out_syscall cell f).2.1 = none := by
  rcases cell with ⟨contents, borrowed⟩
  match borrowed with
  | true => rfl
  | false =>
    match contents with
    | none => rfl
    | some l =>
      unfold run_out_syscall at h ⊢
      rw [do_syscall_run] at h ⊢
      rcases hf2 : f l with ⟨⟨st, out⟩, l'⟩
      have h3 := hf l
      rw [hf2] at h3
      simp only [hf2] at h ⊢
      exact h3 h

/-- helper: the two-out-pointer epilogue writes neither out-parameter
when the status is non-zero, provided the closure itself does not. -/
theorem run_out2_syscall_fail_none {Λ κ : Type} (cell : Singleton Λ)
    (f : Λ → (Int × Option κ × Option Int) × Λ)
    (hf : ∀ l, ((f l).1).1 ≠ 0 → ((f l).1).2.1 = none ∧ ((f l).1).2.2 = none)
    (h : (run_out2_syscall cell f).1 ≠ 0) :
    (run_out2_syscall cell f).2.1 = none ∧ (run_out2_syscall cell f).2.2.1 = none := by
  rcases cell with ⟨contents, borrowed⟩
  match borrowed with
  | true => exact ⟨rfl, rfl⟩
  | false =>
    match contents with
    | none => exact ⟨rfl, rfl⟩
    | some l =>
      unfold run_out2_syscall at h ⊢
      rw [do_syscall_run] at h ⊢
      rcases hf2 : f l with ⟨⟨st, out1, out2⟩, l'⟩
      have h3 := hf l
      rw [hf2] at h3
      simp only [hf2] at h ⊢
      exact h3 h

/-- C2: for every entry point with out-parameters, whenever the
returned status is non-zero the facade wrote no out-parameter: the
token out-pointers of create_pipe/open_pipe/socket/accept/connect/
push/pushto/pop, the result buffer of wait/timedwait, and both
qr_out and ready_offset of wait_any stay unwritten on failure. -/
theorem claim_C2_theorem {Λ Sga Qr : Type} (api : LibOSApi Λ Sga Qr) :
    (∀ (cell : Singleton Λ) (name : Option String),
      (demi_create_pipe api cell name).1 ≠ 0 → (demi_create_pipe api cell name).2.1 = none)
  ∧ (∀ (cell : Singleton Λ) (name : Option String),
      (demi_open_pipe api cell name).1 ≠ 0 → (demi_open_pipe api cell name).2.1 = none)
  ∧ (∀ (cell : Singleton Λ) (d t p : Int),
      (demi_socket api cell d t p).1 ≠ 0 → (demi_socket api cell d t p).2.1 = none)
  ∧ (∀ (cell : Singleton Λ) (qd : Int),
      (demi_accept api cell qd).1 ≠ 0 → (demi_accept api cell qd).2.1 = none)
  ∧ (∀ (cell : Singleton Λ) (qd : Int) (saddr : Option CSockaddr) (size : Nat),
      (demi_connect api cell qd saddr size).1 ≠ 0 →
        (demi_connect api cell qd saddr size).2.1 = none)
  ∧ (∀ (cell : Singleton Λ) (qd : Int) (sg : Option Sga),
      (demi_push api cell qd sg).1 ≠ 0 → (demi_push api cell qd sg).2.1 = none)
  ∧ (∀ (cell : Singleton Λ) (qd : Int) (sg : Option Sga) (saddr : Option CSockaddr)
      (size : Nat),
      (demi_pushto api cell qd sg saddr size).1 ≠ 0 →
        (demi_pushto api cell qd sg saddr size).2.1 = none)
  ∧ (∀ (cell : Singleton Λ) (qd : Int),
      (demi_pop api cell qd).1 ≠ 0 → (demi_pop api cell qd).2.1 = none)
  ∧ (∀ (cell : Singleton Λ) (b : Bool) (qt : QToken) (ts : Option (Int × Int)),
      (demi_wait api cell b qt ts).1 ≠ 0 → (demi_wait api cell b qt ts).2.1 = none)
  ∧ (∀ (cell : Singleton Λ) (b : Bool) (qt : QToken) (ts : Option (Int × Int))
      (M now : Nat),
      (demi_timedwait api cell b qt ts M now).1 ≠ 0 →
        (demi_timedwait api cell b qt ts M now).2.1 = none)
  ∧ (∀ (cell : Singleton Λ) (qts : List QToken) (n : Int) (ts : Option (Int × Int)),
      (demi_wait_any api cell qts n ts).1 ≠ 0 →
        (demi_wait_any api cell qts n ts).2.1 = none
        ∧ (demi_wait_any api cell qts n ts).2.2.1 = none) := by
  refine ⟨?_, ?_, ?_, ?_, ?_, ?_, ?_, ?_, ?_, ?_, ?_⟩
  · intro cell name
    match name with
    | none => intro _; rfl
    | some nm =>
      intro h
      refine run_out_syscall_fail_none cell _ ?_ h
      intro l hl
      rcases ha : api.create_pipe l nm with ⟨r, l'⟩
      match r with
      | .ok v =>
        simp only [ha] at hl
        exact absurd rfl hl
      | .error e => simp [ha]
  · intro cell name
    match name with
    | none => intro _; rfl
    | some nm =>
      intro h
      refine run_out_syscall_fail_none cell _ ?_ h
      intro l hl
      rcases ha : api.open_pipe l nm with ⟨r, l'⟩
      match r with
      | .ok v =>
        simp only [ha] at hl
        exact absurd rfl hl
      | .error e => simp [ha]
  · intro cell d t p
    intro h
    refine run_out_syscall_fail_none cell _ ?_ h
    intro l hl
    rcases ha : api.socket l d t p with ⟨r, l'⟩
    match r with
    | .ok v =>
      simp only [ha] at hl
      exact absurd rfl hl
    | .error e => simp [ha]
  · intro cell qd
    intro h
    refine run_out_syscall_fail_none cell _ ?_ h
    intro l hl
    rcases ha : api.accept l qd with ⟨r, l'⟩
    match r with
    | .ok v =>
      simp only [ha] at hl
      exact absurd rfl hl
    | .error e => simp [ha]
  · intro cell qd saddr size
    match saddr with
    | none => intro _; rfl
    | some sa =>
      simp only [demi_connect]
      by_cases hsz : size = sockaddr_in_size
      · rw [if_neg (not_not_intro hsz)]
        rcases sockaddr_to_socketaddrv4_cases sa with ⟨ep, hc⟩ | hc
        · rw [hc]
          intro h
          refine run_out_syscall_fail_none cell _ ?_ h
          intro l hl
          rcases ha : api.connect l qd ep with ⟨r, l'⟩
          match r with
          | .ok v =>
            simp only [ha] at hl
            exact absurd rfl hl
          | .error e => simp [ha]
        · rw [hc]
          intro _
          rfl
      · rw [if_pos hsz]
        intro _
        rfl
  · intro cell qd sg
    match sg with
    | none => intro _; rfl
    | some sga =>
      intro h
      refine run_out_syscall_fail_none cell _ ?_ h
      intro l hl
      rcases ha : api.push l qd sga with ⟨r, l'⟩
      match r with
      | .ok v =>
        simp only [ha] at hl
        exact absurd rfl hl
      | .error e => simp [ha]
  · intro cell qd sg saddr size
    match sg with
    | none => intro _; rfl
    | some sga =>
      match saddr with
      | none => intro _; rfl
      | some sa =>
        simp only [demi_pushto]
        by_cases hsz : size = sockaddr_in_size
        · rw [if_neg (not_not_intro hsz)]
          rcases sockaddr_to_socketaddrv4_cases sa with ⟨ep, hc⟩ | hc
          · rw [hc]
            intro h
            refine run_out_syscall_fail_none cell _ ?_ h
            intro l hl
            rcases ha : api.pushto l qd sga ep with ⟨r, l'⟩
            match r with
            | .ok v =>
              simp only [ha] at hl
              exact absurd rfl hl
            | .error e => simp [ha]
          · rw [hc]
            intro _
            rfl
        · rw [if_pos hsz]
          intro _
          rfl
  · intro cell qd
    intro h
    refine run_out_syscall_fail_none cell _ ?_ h
    intro l hl
    rcases ha : api.pop l qd with ⟨r, l'⟩
    match r with
    | .ok v =>
      simp only [ha] at hl
      exact absurd rfl hl
    | .error e => simp [ha]
  · intro cell b qt ts
    match ts with
    | none =>
      intro h
      refine run_out_syscall_fail_none cell _ ?_ h
      intro l hl
      rcases ha : api.wait l qt none with ⟨r, l'⟩
      match r with
      | .ok v =>
        simp only [ha] at hl
        exact absurd rfl hl
      | .error e => simp [ha]
    | some (tv_sec, tv_nsec) =>
      intro h
      refine run_out_syscall_fail_none cell _ ?_ h
      intro l hl
      rcases ha : api.wait l qt (some (demi_wait_duration tv_sec tv_nsec)) with ⟨r, l'⟩
      match r with
      | .ok v =>
        simp only [ha] at hl
        exact absurd rfl hl
      | .error e => simp [ha]
  · intro cell b qt ts M now
    match ts with
    | none => intro _; rfl
    | some (tv_sec, tv_nsec) =>
      intro h
      refine run_out_syscall_fail_none cell _ ?_ h
      intro l hl
      rcases ha : api.timedwait l qt
          (some (demi_timedwait_deadline M now tv_sec tv_nsec)) with ⟨r, l'⟩
      match r with
      | .ok v =>
        simp only [ha] at hl
        exact absurd rfl hl
      | .error e => simp [ha]
  · intro cell qts n ts
    match ts with
    | none =>
      simp only [demi_wait_any]
      by_cases hn : n < 0
      · rw [if_pos hn]
        intro _
        exact ⟨rfl, rfl⟩
      · rw [if_neg hn]
        intro h
        refine run_out2_syscall_fail_none cell _ ?_ h
        intro l hl
        rcases ha : api.wait_any l qts none with ⟨r, l'⟩
        match r with
        | .ok (ix, qr) =>
          simp only [ha] at hl
          exact absurd rfl hl
        | .error e => constructor <;> simp [ha]
    | some (tv_sec, tv_nsec) =>
      simp only [demi_wait_any]
      by_cases hn : n < 0
      · rw [if_pos hn]
        intro _
        exact ⟨rfl, rfl⟩
      · rw [if_neg hn]
        intro h
        refine run_out2_syscall_fail_none cell _ ?_ h
        intro l hl
        rcases ha : api.wait_any l qts (some (demi_wait_duration tv_sec tv_nsec)) with ⟨r, l'⟩
        match r with
        | .ok (ix, qr) =>
          simp only [ha] at hl
          exact absurd rfl hl
        | .error e => constructor <;> simp [ha]

/-- C2 witness: the demo accept fails with a non-zero status and the
facade leaves the token out-parameter unwritten. -/
theorem claim_C2_witness :
    (demi_accept demoApi ⟨some (), false⟩ 3).1 ≠ 0
  ∧ (demi_accept demoApi ⟨some (), false⟩ 3).2.1 = none :=
  ⟨by decide, (claim_C2_theorem demoApi).2.2.2.1 ⟨some (), false⟩ 3 (by decide)⟩

/-- helper: the sockaddr conversion succeeds on an AF_INET input. -/
theorem sockaddr_to_socketaddrv4_ok (sa : CSockaddr) (h : sa.sa_family = AF_INET) :
    ∃ ep, sockaddr_to_socketaddrv4 sa = .ok ep := by
  unfold sockaddr_to_socketaddrv4 sockaddr_transmute
  rw [if_neg (by simp [h])]
  exact ⟨_, rfl⟩

/-- C8 (amended): every status-returning ABI entry point other than
demi_init that reaches the dispatch step returns EBUSY when the
singleton is already mutably borrowed, and ENOSYS when the singleton
is unborrowed but uninitialized; demi_sgaalloc also reaches the
dispatch step but, returning an SGA value rather than an errno status,
collapses both singleton failures to the zeroed (null) SGA; when the
singleton holds an installed LibOS and is unborrowed, the dispatched
closure runs exactly once under the borrow and the borrow is released
in the resulting singleton (for demi_sgaalloc: the allocation is
returned on success, the null SGA on a dispatched failure). -/
theorem claim_C8_theorem {Λ Sga Qr : Type} (api : LibOSApi Λ Sga Qr) :
    ((∀ (c : Option Λ) (name : String),
        (demi_create_pipe api ⟨c, true⟩ (some name)).1 = EBUSY)
    ∧ (∀ (c : Option Λ) (name : String),
        (demi_open_pipe api ⟨c, true⟩ (some name)).1 = EBUSY)
    ∧ (∀ (c : Option Λ) (d t p : Int), (demi_socket api ⟨c, true⟩ d t p).1 = EBUSY)
    ∧ (∀ (c : Option Λ) (qd : Int) (sa : CSockaddr), sa.sa_family = AF_INET →
        (demi_bind api ⟨c, true⟩ qd (some sa) sockaddr_in_size).1 = EBUSY)
    ∧ (∀ (c : Option Λ) (qd b : Int), 1 ≤ b →
        (demi_listen api ⟨c, true⟩ qd b).1 = EBUSY)
    ∧ (∀ (c : Option Λ) (qd : Int), (demi_accept api ⟨c, true⟩ qd).1 = EBUSY)
    ∧ (∀ (c : Option Λ) (qd : Int) (sa : CSockaddr), sa.sa_family = AF_INET →
        (demi_connect api ⟨c, true⟩ qd (some sa) sockaddr_in_size).1 = EBUSY)
    ∧ (∀ (c : Option Λ) (qd : Int), (demi_close api ⟨c, true⟩ qd).1 = EBUSY)
    ∧ (∀ (c : Option Λ) (qd : Int) (sg : Sga) (sa : CSockaddr), sa.sa_family = AF_INET →
        (demi_pushto api ⟨c, true⟩ qd (some sg) (some sa) sockaddr_in_size).1 = EBUSY)
    ∧ (∀ (c : Option Λ) (qd : Int) (sg : Sga),
        (demi_push api ⟨c, true⟩ qd (some sg)).1 = EBUSY)
    ∧ (∀ (c : Option Λ) (qd : Int), (demi_pop api ⟨c, true⟩ qd).1 = EBUSY)
    ∧ (∀ (c : Option Λ) (b : Bool) (qt : QToken) (tv_sec tv_nsec : Int) (M now : Nat),
        (demi_timedwait api ⟨c, true⟩ b qt (some (tv_sec, tv_nsec)) M now).1 = EBUSY)
    ∧ (∀ (c : Option Λ) (b : Bool) (qt : QToken) (ts : Option (Int × Int)),
        (demi_wait api ⟨c, true⟩ b qt ts).1 = EBUSY)
    ∧ (∀ (c : Option Λ) (qts : List QToken) (n : Int) (ts : Option (Int × Int)), 0 ≤ n →
        (demi_wait_any api ⟨c, true⟩ qts n ts).1 = EBUSY)
    ∧ (∀ (c : Option Λ) (sg : Sga), (demi_sgafree api ⟨c, true⟩ (some sg)).1 = EBUSY)
    ∧ (∀ (c : Option Λ) (ns : Sga) (size : Nat),
        demi_sgaalloc api ⟨c, true⟩ ns size = (ns, ⟨c, true⟩)))
  ∧ ((∀ (name : String),
        (demi_create_pipe api (⟨none, false⟩ : Singleton Λ) (some name)).1 = ENOSYS)
    ∧ (∀ (name : String),
        (demi_open_pipe api (⟨none, false⟩ : Singleton Λ) (some name)).1 = ENOSYS)
    ∧ (∀ (d t p : Int),
        (demi_socket api (⟨none, false⟩ : Singleton Λ) d t p).1 = ENOSYS)
    ∧ (∀ (qd : Int) (sa : CSockaddr), sa.sa_family = AF_INET →
        (demi_bind api (⟨none, false⟩ : Singleton Λ) qd (some sa) sockaddr_in_size).1 = ENOSYS)
    ∧ (∀ (qd b : Int), 1 ≤ b →
        (demi_listen api (⟨none, false⟩ : Singleton Λ) qd b).1 = ENOSYS)
    ∧ (∀ (qd : Int), (demi_accept api (⟨none, false⟩ : Singleton Λ) qd).1 = ENOSYS)
    ∧ (∀ (qd : Int) (sa : CSockaddr), sa.sa_family = AF_INET →
        (demi_connect api (⟨none, false⟩ : Singleton Λ) qd (some sa) sockaddr_in_size).1 = ENOSYS)
    ∧ (∀ (qd : Int), (demi_close api (⟨none, false⟩ : Singleton Λ) qd).1 = ENOSYS)
    ∧ (∀ (qd : Int) (sg : Sga) (sa : CSockaddr), sa.sa_family = AF_INET →
        (demi_pushto api (⟨none, false⟩ : Singleton Λ) qd (some sg) (some sa)
          sockaddr_in_size).1 = ENOSYS)
    ∧ (∀ (qd : Int) (sg : Sga),
        (demi_push api (⟨none, false⟩ : Singleton Λ) qd (some sg)).1 = ENOSYS)
    ∧ (∀ (qd : Int), (demi_pop api (⟨none, false⟩ : Singleton Λ) qd).1 = ENOSYS)
    ∧ (∀ (b : Bool) (qt : QToken) (tv_sec tv_nsec : Int) (M now : Nat),
        (demi_timedwait api (⟨none, false⟩ : Singleton Λ) b qt (some (tv_sec, tv_nsec))
          M now).1 = ENOSYS)
    ∧ (∀ (b : Bool) (qt : QToken) (ts : Option (Int × Int)),
        (demi_wait api (⟨none, false⟩ : Singleton Λ) b qt ts).1 = ENOSYS)
    ∧ (∀ (qts : List QToken) (n : Int) (ts : Option (Int × Int)), 0 ≤ n →
        (demi_wait_any api (⟨none, false⟩ : Singleton Λ) qts n ts).1 = ENOSYS)
    ∧ (∀ (sg : Sga), (demi_sgafree api (⟨none, false⟩ : Singleton Λ) (some sg)).1 = ENOSYS)
    ∧ (∀ (ns : Sga) (size : Nat),
        demi_sgaalloc api (⟨none, false⟩ : Singleton Λ) ns size = (ns, ⟨none, false⟩)))
  ∧ ((∀ (β : Type) (l : Λ) (f : Λ → β × Λ),
      do_syscall ⟨some l, false⟩ f = (.ok (f l).1, ⟨some (f l).2, false⟩))
    ∧ (∀ (l : Λ) (ns sga : Sga) (size : Nat), api.sgaalloc l size = .ok sga →
        demi_sgaalloc api ⟨some l, false⟩ ns size = (sga, ⟨some l, false⟩))
    ∧ (∀ (l : Λ) (ns : Sga) (e : Fail) (size : Nat), api.sgaalloc l size = .error e →
        demi_sgaalloc api ⟨some l, false⟩ ns size = (ns, ⟨some l, false⟩))) := by
  refine ⟨⟨?_, ?_, ?_, ?_, ?_, ?_, ?_, ?_, ?_, ?_, ?_, ?_, ?_, ?_, ?_, ?_⟩,
    ⟨?_, ?_, ?_, ?_, ?_, ?_, ?_, ?_, ?_, ?_, ?_, ?_, ?_, ?_, ?_, ?_⟩,
    fun β l f => do_syscall_run l f, ?_, ?_⟩
  · intro c name
    rfl
  · intro c name
    rfl
  · intro c d t p
    rfl
  · intro c qd sa hfam
    obtain ⟨ep, hc⟩ := sockaddr_to_socketaddrv4_ok sa hfam
    simp only [demi_bind, hc]
    rw [if_neg (not_not_intro rfl)]
    rfl
  · intro c qd b hb
    simp only [demi_listen]
    rw [if_neg (by omega)]
    rfl
  · intro c qd
    rfl
  · intro c qd sa hfam
    obtain ⟨ep, hc⟩ := sockaddr_to_socketaddrv4_ok sa hfam
    simp only [demi_connect, hc]
    rw [if_neg (not_not_intro rfl)]
    rfl
  · intro c qd
    rfl
  · intro c qd sg sa hfam
    obtain ⟨ep, hc⟩ := sockaddr_to_socketaddrv4_ok sa hfam
    simp only [demi_pushto, hc]
    rw [if_neg (not_not_intro rfl)]
    rfl
  · intro c qd sg
    rfl
  · intro c qd
    rfl
  · intro c b qt tv_sec tv_nsec M now
    rfl
  · intro c b qt ts
    rfl
  · intro c qts n ts hn
    simp only [demi_wait_any]
    rw [if_neg (by omega)]
    rfl
  · intro c sg
    rfl
  · intro c ns size
    rfl
  · intro name
    rfl
  · intro name
    rfl
  · intro d t p
    rfl
  · intro qd sa hfam
    obtain ⟨ep, hc⟩ := sockaddr_to_socketaddrv4_ok sa hfam
    simp only [demi_bind, hc]
    rw [if_neg (not_not_intro rfl)]
    rfl
  · intro qd b hb
    simp only [demi_listen]
    rw [if_neg (by omega)]
    rfl
  · intro qd
    rfl
  · intro qd sa hfam
    obtain ⟨ep, hc⟩ := sockaddr_to_socketaddrv4_ok sa hfam
    simp only [demi_connect, hc]
    rw [if_neg (not_not_intro rfl)]
    rfl
  · intro qd
    rfl
  · intro qd sg sa hfam
    obtain ⟨ep, hc⟩ := sockaddr_to_socketaddrv4_ok sa hfam
    simp only [demi_pushto, hc]
    rw [if_neg (not_not_intro rfl)]
    rfl
  · intro qd sg
    rfl
  · intro qd
    rfl
  · intro b qt tv_sec tv_nsec M now
    rfl
  · intro b qt ts
    rfl
  · intro qts n ts hn
    simp only [demi_wait_any]
    rw [if_neg (by omega)]
    rfl
  · intro sg
    rfl
  · intro ns size
    rfl
  · intro l ns sga size hok
    unfold demi_sgaalloc
    rw [do_syscall_run]
    simp only [hok]
  · intro l ns e size herr
    unfold demi_sgaalloc
    rw [do_syscall_run]
    simp only [herr]

/-- C8 counterexample: demi_sgaalloc reaches the dispatch step
(it calls do_syscall), yet on a borrowed or on an uninitialized
singleton it returns the zeroed (null) SGA — its result carries no
errno status at all — rather than EBUSY or ENOSYS; the same call on an
initialized singleton returns the allocation. -/
theorem claim_C8_counterexample :
    demi_sgaalloc sgaApi ⟨some (), true⟩ 0 5 = (0, ⟨some (), true⟩)
  ∧ demi_sgaalloc sgaApi ⟨none, false⟩ 0 5 = (0, ⟨none, false⟩)
  ∧ demi_sgaalloc sgaApi ⟨some (), false⟩ 0 5 = (7, ⟨some (), false⟩)
  ∧ (0 : Nat) ≠ 7 :=
  ⟨rfl, rfl, rfl, by decide⟩

/-- C8 witness: a concrete borrowed call returns EBUSY, a concrete
uninitialized call returns ENOSYS, a concrete initialized call runs
its closure under the borrow and releases it, and demi_sgaalloc on a
borrowed singleton yields the null SGA while on an initialized one it
yields the allocation. -/
theorem claim_C8_witness :
    (demi_create_pipe demoApi ⟨some (), true⟩ (some "p")).1 = EBUSY
  ∧ (demi_create_pipe demoApi ⟨none, false⟩ (some "p")).1 = ENOSYS
  ∧ do_syscall ⟨some (), false⟩ (fun l : Unit => ((5 : Int), l)) =
      (.ok 5, ⟨some (), false⟩)
  ∧ demi_sgaalloc sgaApi ⟨some (), true⟩ 0 5 = (0, ⟨some (), true⟩)
  ∧ demi_sgaalloc sgaApi ⟨some (), false⟩ 0 5 = (7, ⟨some (), false⟩) := by
  have h := claim_C8_theorem demoApi
  have h2 := claim_C8_theorem sgaApi
  exact ⟨h.1.1 (some ()) "p", h.2.1.1 "p", h.2.2.1 Int () (fun l => (5, l)),
    h2.1.2.2.2.2.2.2.2.2.2.2.2.2.2.2.2 (some ()) 0 5,
    h2.2.2.2.1 () 0 7 5 rfl⟩

end Claims

end Demikernel
